import Mathlib

/-!
Shallow embedding of the pose-based exercise analyzer of `ExerciseSession.tsx`:
the geometry helper `getAngle`, the per-frame form evaluator `checkForm`, the
rep counter `countReps` with its hysteresis thresholds, and the session
lifecycle handlers (`handleStartExercise`, `handleManualRep`, `handleClose`,
`incrementReps`, `saveWorkoutHistory`).

Modelling conventions:
* JS numbers become `ℚ` for landmark coordinates, visibilities and pixel
  thresholds; the transcendental angle computation (`Math.atan2`) is embedded
  over `ℝ`, with `Math.atan2 y x` as `Complex.arg ⟨x, y⟩` (both have range
  `(-π, π]`).
* React `useState` setters are modelled as in-place record updates executed in
  program order; a functional updater (`setCurrentReps(prev => ...)`) commits
  its result when it returns.  Consequently `saveWorkoutHistory`, which is
  invoked from inside the `setCurrentReps` updater and reads the render-scope
  variable `currentReps`, sees the value from before the increment commits.
* `parseInt` is modelled as `jsParseInt : String → Option ℤ` with `none`
  standing for JS `NaN`; every `NaN` comparison is `false`, which the
  call sites spell out explicitly.
* External effects are modelled as counters/logs inside the state: the number
  of success-sound plays (`sounds`), the appended workout-history records
  (`saved`), and flags for the camera stream (`cameraOn`) and the MediaPipe
  pose instance (`poseOn`).
-/

namespace GymZen

/-- The fixed 33-entry MediaPipe landmark enumeration (`landmarkNames`). -/
inductive LandmarkKey where
  | nose | left_eye_inner | left_eye | left_eye_outer | right_eye_inner
  | right_eye | right_eye_outer | left_ear | right_ear | mouth_left
  | mouth_right | left_shoulder | right_shoulder | left_elbow | right_elbow
  | left_wrist | right_wrist | left_pinky | right_pinky | left_index
  | right_index | left_thumb | right_thumb | left_hip | right_hip
  | left_knee | right_knee | left_ankle | right_ankle | left_heel
  | right_heel | left_foot_index | right_foot_index
  deriving DecidableEq, Repr

/-- One keypoint as built in `onPoseResults`: pixel coordinates, a visibility
confidence and the landmark name. -/
structure Keypoint where
  name : LandmarkKey
  x : ℚ
  y : ℚ
  visibility : ℚ
  deriving DecidableEq, Repr

/-- `keypoints.find(kp => kp.name === name)` — the helper `L` used by
`countReps` and `checkForm`. -/
def Lkp (kps : List Keypoint) (n : LandmarkKey) : Option Keypoint :=
  kps.find? (fun kp => kp.name == n)

/-- `Math.abs` on the rational pixel values. -/
def jsAbs (q : ℚ) : ℚ := if q < 0 then -q else q

/-- `Math.atan2 y x`, i.e. the polar angle of the point `(x, y)`,
with range `(-π, π]`. -/
noncomputable def atan2 (y x : ℝ) : ℝ := Complex.arg ⟨x, y⟩

/-- `getAngle(pointA, pointB, pointC)`: the angle at vertex `B`, computed as
the absolute difference of the two rays' polar angles in degrees, folded into
`[0, 180]`; `0` when any input is absent. -/
noncomputable def getAngle (a b c : Option Keypoint) : ℝ :=
  match a, b, c with
  | some pa, some pb, some pc =>
      let radians := atan2 ((pc.y : ℝ) - (pb.y : ℝ)) ((pc.x : ℝ) - (pb.x : ℝ)) -
                     atan2 ((pa.y : ℝ) - (pb.y : ℝ)) ((pa.x : ℝ) - (pb.x : ℝ))
      let angle := |radians * 180 / Real.pi|
      if angle > 180 then 360 - angle else angle
  | _, _, _ => 0

/-! ## Thresholds (the `thresholds` object) -/

structure SquatThresholds where
  hipKneeDown : ℚ
  hipKneeUp : ℚ
  kneeAnglePerfect : ℚ
  hipAnglePerfect : ℚ
  backAngleMin : ℚ
  kneeAlignmentTolerance : ℚ

structure PushupThresholds where
  elbowDown : ℚ
  elbowUp : ℚ
  elbowAnglePerfect : ℚ
  bodyAlignmentAngle : ℚ
  shoulderAnglePerfect : ℚ

structure PullupThresholds where
  elbowDown : ℚ
  elbowUp : ℚ
  elbowAnglePerfect : ℚ
  shoulderEngagement : ℚ

structure LungeThresholds where
  kneeDown : ℚ
  kneeUp : ℚ
  frontKneeAnglePerfect : ℚ
  backKneeAnglePerfect : ℚ
  torsoAngleMin : ℚ

structure PlankThresholds where
  hipShoulderMin : ℚ
  bodyAlignmentPerfect : ℚ
  elbowAngle : ℚ

structure JumpingjackThresholds where
  armAngleUp : ℚ
  armAngleDown : ℚ
  legSpreadAngle : ℚ

structure Thresholds where
  squat : SquatThresholds
  pushup : PushupThresholds
  pullup : PullupThresholds
  lunge : LungeThresholds
  plank : PlankThresholds
  jumpingjack : JumpingjackThresholds

/-- The `thresholds` constant of `ExerciseSession.tsx`. -/
def thresholds : Thresholds :=
  { squat := { hipKneeDown := 80, hipKneeUp := 120, kneeAnglePerfect := 90,
               hipAnglePerfect := 90, backAngleMin := 45, kneeAlignmentTolerance := 15 }
    pushup := { elbowDown := 90, elbowUp := 160, elbowAnglePerfect := 90,
                bodyAlignmentAngle := 170, shoulderAnglePerfect := 90 }
    pullup := { elbowDown := 70, elbowUp := 150, elbowAnglePerfect := 45,
                shoulderEngagement := 30 }
    lunge := { kneeDown := 85, kneeUp := 150, frontKneeAnglePerfect := 90,
               backKneeAnglePerfect := 90, torsoAngleMin := 80 }
    plank := { hipShoulderMin := 160, bodyAlignmentPerfect := 180, elbowAngle := 90 }
    jumpingjack := { armAngleUp := 160, armAngleDown := 30, legSpreadAngle := 40 } }

/-! ## JS string primitives used by the component -/

/-- ASCII lower-casing of one character, as `String.prototype.toLowerCase`
acts on the exercise names occurring here. -/
def lowerChar (c : Char) : Char :=
  if 'A' ≤ c ∧ c ≤ 'Z' then Char.ofNat (c.toNat + 32) else c

/-- `name.toLowerCase()`. -/
def jsToLower (s : String) : String := String.mk (s.data.map lowerChar)

/-- Does `needle` occur at the head of `hay`? -/
def headMatches : List Char → List Char → Bool
  | _, [] => true
  | [], _ :: _ => false
  | a :: as, b :: bs => a == b && headMatches as bs

/-- Does `needle` occur anywhere in `hay`? -/
def hasSub : List Char → List Char → Bool
  | [], needle => needle.isEmpty
  | a :: as, needle => headMatches (a :: as) needle || hasSub as needle

/-- `s.includes(sub)`. -/
def strIncludes (s sub : String) : Bool := hasSub s.data sub.data

/-- Leading decimal digits of a character list interpreted as a number. -/
def digitsToNat (l : List Char) : ℕ :=
  l.foldl (fun acc c => 10 * acc + (c.toNat - '0'.toNat)) 0

/-- `parseInt(s)` in base 10: skip leading whitespace, optional sign, then a
maximal run of digits; `none` models JS `NaN` (no digits at all). -/
def jsParseInt (s : String) : Option ℤ :=
  let l := s.data.dropWhile (fun c => c == ' ' || c == '\t' || c == '\n')
  match l with
  | '-' :: rest =>
      let d := rest.takeWhile Char.isDigit
      if d.isEmpty then none else some (-(digitsToNat d : ℤ))
  | '+' :: rest =>
      let d := rest.takeWhile Char.isDigit
      if d.isEmpty then none else some (digitsToNat d : ℤ)
  | _ =>
      let d := l.takeWhile Char.isDigit
      if d.isEmpty then none else some (digitsToNat d : ℤ)

/-! ## Session state -/

/-- The three UI steps of the session dialog. -/
inductive Step where
  | reps | exercise | complete
  deriving DecidableEq, Repr

/-- The rep state machine's phase (`lastRepStateRef`). -/
inductive Phase where
  | up | down
  deriving DecidableEq, Repr

/-- The exercise catalog entry received as a prop. -/
structure Exercise where
  id : String
  name : String
  description : String
  video_url : String
  category : String
  difficulty : String
  deriving DecidableEq, Repr

/-- One record appended to `workoutHistory` by `saveWorkoutHistory`. -/
structure Summary where
  exerciseName : String
  reps : ℕ
  targetReps : Option ℤ
  date : String
  difficulty : String
  category : String
  deriving DecidableEq, Repr

/-- The component state: `useState` hooks, the `lastRepStateRef` phase, and
the modelled external effects (camera stream, pose instance, success sounds,
persisted history). -/
structure SessionState where
  step : Step
  targetReps : String
  currentReps : ℕ
  isDetecting : Bool
  formFeedback : String
  incorrectJoints : List LandmarkKey
  phase : Phase
  cameraOn : Bool
  poseOn : Bool
  sounds : ℕ
  saved : List Summary
  deriving DecidableEq, Repr

/-- The state at mount: `useState` defaults plus `lastRepStateRef = "up"`. -/
def initialState : SessionState :=
  { step := .reps, targetReps := "", currentReps := 0, isDetecting := false,
    formFeedback := "", incorrectJoints := [], phase := .up,
    cameraOn := false, poseOn := false, sounds := 0, saved := [] }

/-! ## Session lifecycle handlers -/

/-- `parseInt(targetReps || "0")` — the empty string is the only falsy string
value here, so it falls back to `"0"`. -/
def jsTargetInt (s : String) : Option ℤ :=
  jsParseInt (if s = "" then "0" else s)

/-- `newReps >= parseInt(targetReps || "0")`; any comparison against JS `NaN`
is `false`. -/
def reachedTarget (newReps : ℕ) (targetReps : String) : Bool :=
  match jsTargetInt targetReps with
  | some t => decide ((newReps : ℤ) ≥ t)
  | none => false

/-- `saveWorkoutHistory`: appends one summary record.  It reads the
render-scope `currentReps`, which — being invoked from inside the
`setCurrentReps` updater — still holds the PRE-increment rep count. -/
def saveWorkoutHistory (ex : Exercise) (now : String) (st : SessionState) : SessionState :=
  { st with saved := st.saved ++
      [{ exerciseName := ex.name, reps := st.currentReps,
         targetReps := jsTargetInt st.targetReps, date := now,
         difficulty := ex.difficulty, category := ex.category }] }

/-- `incrementReps`: `setCurrentReps(prev => { const newReps = prev + 1;
playSuccessSound(); if (newReps >= parseInt(targetReps || "0")) {
setIsDetecting(false); setStep("complete"); saveWorkoutHistory(); }
return newReps; })`.  The updater's result commits last. -/
def incrementReps (ex : Exercise) (now : String) (st : SessionState) : SessionState :=
  let newReps := st.currentReps + 1
  let st1 := { st with sounds := st.sounds + 1 }
  let st2 :=
    if reachedTarget newReps st1.targetReps then
      saveWorkoutHistory ex now { st1 with isDetecting := false, step := .complete }
    else st1
  { st2 with currentReps := newReps }

/-- `handleManualRep`: `setCurrentReps(prev => prev + 1); playSuccessSound();`
— note that, unlike `incrementReps`, it performs no completion check and
never persists or transitions. -/
def handleManualRep (st : SessionState) : SessionState :=
  { st with currentReps := st.currentReps + 1, sounds := st.sounds + 1 }

/-- The validation guard of `handleStartExercise`:
`!targetReps || parseInt(targetReps) <= 0`.  `NaN <= 0` is `false` in JS, so
a non-numeric non-empty string passes the guard. -/
def startGuardFails (s : String) : Bool :=
  (s == "") ||
  (match jsParseInt s with
   | some t => decide (t ≤ 0)
   | none => false)

/-- `handleStartExercise`: on validation failure a toast is shown and nothing
changes; otherwise the step becomes `"exercise"` and (modelling the successful
`setupCamera` → `initializePoseDetection` continuation) the camera stream and
pose instance are acquired and detection starts. -/
def handleStartExercise (st : SessionState) : SessionState :=
  if startGuardFails st.targetReps then st
  else { st with step := .exercise, cameraOn := true, poseOn := true,
                 isDetecting := true }

/-- `handleClose`: stops detection, releases the camera tracks, the pose
instance and the camera util, then resets `step`, `currentReps`,
`targetReps`, `formFeedback` and `incorrectJoints`.
`lastRepStateRef` (the `phase` field) is NOT reset. -/
def handleClose (st : SessionState) : SessionState :=
  { st with isDetecting := false, cameraOn := false, poseOn := false,
            step := .reps, currentReps := 0, targetReps := "",
            formFeedback := "", incorrectJoints := [] }

/-! ## Rep counter (`countReps`) -/

/-- The exercise family selected by `countReps`' `if/else-if` chain on
`exercise.name.toLowerCase()`. -/
inductive ExKind where
  | squat | pushup | pullup | lunge | jack | other
  deriving DecidableEq, Repr

/-- The dispatch chain at the head of `countReps`:
`includes("squat")` / `includes("push") || (includes("up") && includes("push"))`
/ `includes("pull")` / `includes("lunge")` / `includes("jack") || includes("jump")`. -/
def exKindOfName (name : String) : ExKind :=
  let s := jsToLower name
  if strIncludes s "squat" then .squat
  else if strIncludes s "push" || (strIncludes s "up" && strIncludes s "push") then .pushup
  else if strIncludes s "pull" then .pullup
  else if strIncludes s "lunge" then .lunge
  else if strIncludes s "jack" || strIncludes s "jump" then .jack
  else .other

open Classical in
/-- The body of `countReps` after the name dispatch: one hysteresis branch per
exercise family.  The plank (and any unmatched exercise) has no rep signal. -/
noncomputable def countStep (ex : Exercise) (now : String) (k : ExKind)
    (kps : List Keypoint) (st : SessionState) : SessionState :=
  match k with
  | .squat =>
      match Lkp kps .left_hip, Lkp kps .left_knee with
      | some leftHip, some leftKnee =>
          if leftHip.visibility > 0.4 ∧ leftKnee.visibility > 0.4 then
            let hipKneeDistance := jsAbs (leftHip.y - leftKnee.y)
            if hipKneeDistance < thresholds.squat.hipKneeDown ∧ st.phase = .up then
              { st with phase := .down }
            else if hipKneeDistance > thresholds.squat.hipKneeUp ∧ st.phase = .down then
              incrementReps ex now { st with phase := .up }
            else st
          else st
      | _, _ => st
  | .pushup =>
      match Lkp kps .left_shoulder, Lkp kps .left_elbow, Lkp kps .left_wrist with
      | some leftShoulder, some leftElbow, some leftWrist =>
          if leftShoulder.visibility > 0.4 ∧ leftElbow.visibility > 0.4 ∧
             leftWrist.visibility > 0.4 then
            let elbowAngle := getAngle (some leftShoulder) (some leftElbow) (some leftWrist)
            if elbowAngle < (thresholds.pushup.elbowDown : ℝ) ∧ st.phase = .up then
              { st with phase := .down }
            else if elbowAngle > (thresholds.pushup.elbowUp : ℝ) ∧ st.phase = .down then
              incrementReps ex now { st with phase := .up }
            else st
          else st
      | _, _, _ => st
  | .pullup =>
      match Lkp kps .left_shoulder, Lkp kps .left_elbow, Lkp kps .left_wrist with
      | some leftShoulder, some leftElbow, some leftWrist =>
          if leftShoulder.visibility > 0.4 ∧ leftElbow.visibility > 0.4 ∧
             leftWrist.visibility > 0.4 then
            let elbowAngle := getAngle (some leftShoulder) (some leftElbow) (some leftWrist)
            if elbowAngle < (thresholds.pullup.elbowDown : ℝ) ∧ st.phase = .up then
              { st with phase := .down }
            else if elbowAngle > (thresholds.pullup.elbowUp : ℝ) ∧ st.phase = .down then
              incrementReps ex now { st with phase := .up }
            else st
          else st
      | _, _, _ => st
  | .lunge =>
      match Lkp kps .left_hip, Lkp kps .left_knee, Lkp kps .left_ankle with
      | some leftHip, some leftKnee, some leftAnkle =>
          if leftHip.visibility > 0.4 ∧ leftKnee.visibility > 0.4 ∧
             leftAnkle.visibility > 0.4 then
            let kneeAngle := getAngle (some leftHip) (some leftKnee) (some leftAnkle)
            if kneeAngle < (thresholds.lunge.kneeDown : ℝ) ∧ st.phase = .up then
              { st with phase := .down }
            else if kneeAngle > (thresholds.lunge.kneeUp : ℝ) ∧ st.phase = .down then
              incrementReps ex now { st with phase := .up }
            else st
          else st
      | _, _, _ => st
  | .jack =>
      match Lkp kps .left_wrist, Lkp kps .left_shoulder, Lkp kps .left_ankle,
            Lkp kps .right_ankle with
      | some leftWrist, some leftShoulder, some leftAnkle, some rightAnkle =>
          if leftWrist.visibility > 0.4 ∧ leftShoulder.visibility > 0.4 ∧
             leftAnkle.visibility > 0.4 ∧ rightAnkle.visibility > 0.4 then
            let armsUp := leftWrist.y < leftShoulder.y - 50
            let legsSpread := jsAbs (leftAnkle.x - rightAnkle.x) > 80
            if armsUp ∧ legsSpread ∧ st.phase = .down then
              incrementReps ex now { st with phase := .up }
            else if ¬armsUp ∧ ¬legsSpread ∧ st.phase = .up then
              { st with phase := .down }
            else st
          else st
      | _, _, _, _ => st
  | .other => st

/-- `countReps(keypoints)` for the active exercise. -/
noncomputable def countReps (ex : Exercise) (now : String)
    (kps : List Keypoint) (st : SessionState) : SessionState :=
  countStep ex now (exKindOfName ex.name) kps st

/-! ### The per-exercise rep signals, as computed inside `countReps` -/

/-- Squat rep signal: `Math.abs(leftHip.y - leftKnee.y)` (0 when absent). -/
def squatSignal (kps : List Keypoint) : ℚ :=
  match Lkp kps .left_hip, Lkp kps .left_knee with
  | some leftHip, some leftKnee => jsAbs (leftHip.y - leftKnee.y)
  | _, _ => 0

/-- Push-up / pull-up rep signal: `getAngle(leftShoulder, leftElbow, leftWrist)`. -/
noncomputable def elbowSignal (kps : List Keypoint) : ℝ :=
  getAngle (Lkp kps .left_shoulder) (Lkp kps .left_elbow) (Lkp kps .left_wrist)

/-- Lunge rep signal: `getAngle(leftHip, leftKnee, leftAnkle)`. -/
noncomputable def lungeSignal (kps : List Keypoint) : ℝ :=
  getAngle (Lkp kps .left_hip) (Lkp kps .left_knee) (Lkp kps .left_ankle)

/-! ## Form evaluator (`checkForm`)

`checkForm` threads an accumulator `(incorrect, feedback)` through a sequence
of guarded checks; each firing check appends its joints to `incorrect` and
overwrites `feedback`.  Each contiguous source block sharing one
presence/visibility guard is one definition below. -/

/-- The `checkForm` accumulator: the `incorrect` array and the current
`feedback` string. -/
abbrev FormAcc := List LandmarkKey × String

open Classical in
/-- Squat block 1: knee angle (hip-knee-ankle) depth checks and the
knee-over-toes check. -/
noncomputable def squatKneeBlock (kps : List Keypoint) (s : FormAcc) : FormAcc :=
  match Lkp kps .left_hip, Lkp kps .left_knee, Lkp kps .left_ankle with
  | some leftHip, some leftKnee, some leftAnkle =>
      if leftHip.visibility > 0.4 ∧ leftKnee.visibility > 0.4 ∧
         leftAnkle.visibility > 0.4 then
        let kneeAngle := getAngle (some leftHip) (some leftKnee) (some leftAnkle)
        let s1 :=
          if kneeAngle < 70 then
            (s.1 ++ [.left_knee, .left_hip, .left_ankle], "Squat too deep - protect knees")
          else if kneeAngle > 110 then
            (s.1 ++ [.left_knee, .left_hip], "Go deeper - aim for 90° knee angle")
          else s
        if leftKnee.x > leftAnkle.x + 30 then
          (s1.1 ++ [.left_knee, .left_ankle], "Keep knees behind toes")
        else s1
      else s
  | _, _, _ => s

open Classical in
/-- Squat block 2: hip angle (shoulder-hip-knee). -/
noncomputable def squatHipBlock (kps : List Keypoint) (s : FormAcc) : FormAcc :=
  match Lkp kps .left_shoulder, Lkp kps .left_hip, Lkp kps .left_knee with
  | some leftShoulder, some leftHip, some leftKnee =>
      if leftShoulder.visibility > 0.4 ∧ leftHip.visibility > 0.4 ∧
         leftKnee.visibility > 0.4 then
        let hipAngle := getAngle (some leftShoulder) (some leftHip) (some leftKnee)
        if hipAngle < 70 then
          (s.1 ++ [.left_hip, .left_shoulder, .left_knee], "Hips too low - maintain hip angle")
        else s
      else s
  | _, _, _ => s

/-- Squat block 3: back alignment (shoulder-hip horizontal offset). -/
def squatBackBlock (kps : List Keypoint) (s : FormAcc) : FormAcc :=
  match Lkp kps .left_shoulder, Lkp kps .left_hip with
  | some leftShoulder, some leftHip =>
      if leftShoulder.visibility > 0.4 ∧ leftHip.visibility > 0.4 then
        let backTilt := jsAbs (leftShoulder.x - leftHip.x)
        if backTilt > 60 then
          (s.1 ++ [.left_shoulder, .left_hip], "Keep back straight & chest up")
        else s
      else s
  | _, _ => s

/-- Squat block 4: knee width (valgus/varus). -/
def squatKneeWidthBlock (kps : List Keypoint) (s : FormAcc) : FormAcc :=
  match Lkp kps .left_knee, Lkp kps .right_knee with
  | some leftKnee, some rightKnee =>
      if leftKnee.visibility > 0.4 ∧ rightKnee.visibility > 0.4 then
        let kneeDistance := jsAbs (leftKnee.x - rightKnee.x)
        if kneeDistance < 60 then
          (s.1 ++ [.left_knee, .right_knee], "Push knees outward - hip width")
        else s
      else s
  | _, _ => s

/-- The squat section of `checkForm`. -/
noncomputable def squatFormSection (kps : List Keypoint) (s : FormAcc) : FormAcc :=
  squatKneeWidthBlock kps (squatBackBlock kps (squatHipBlock kps (squatKneeBlock kps s)))

open Classical in
/-- Push-up block 1: body alignment (shoulder-hip-ankle) and sagging hips. -/
noncomputable def pushupBodyBlock (kps : List Keypoint) (s : FormAcc) : FormAcc :=
  match Lkp kps .left_shoulder, Lkp kps .left_hip, Lkp kps .left_ankle with
  | some leftShoulder, some leftHip, some leftAnkle =>
      if leftShoulder.visibility > 0.4 ∧ leftHip.visibility > 0.4 ∧
         leftAnkle.visibility > 0.4 then
        let bodyAngle := getAngle (some leftShoulder) (some leftHip) (some leftAnkle)
        let s1 :=
          if bodyAngle < 160 then
            (s.1 ++ [.left_shoulder, .left_hip, .left_ankle], "Keep body straight - plank position")
          else s
        let shoulderHipDiff := jsAbs (leftShoulder.y - leftHip.y)
        let hipAnkleDiff := jsAbs (leftHip.y - leftAnkle.y)
        if shoulderHipDiff > 50 ∨ hipAnkleDiff > 50 then
          (s1.1 ++ [.left_hip], "Don't let hips sag")
        else s1
      else s
  | _, _, _ => s

open Classical in
/-- Push-up block 2: elbow angle (shoulder-elbow-wrist) and elbow flare. -/
noncomputable def pushupElbowBlock (kps : List Keypoint) (s : FormAcc) : FormAcc :=
  match Lkp kps .left_shoulder, Lkp kps .left_elbow, Lkp kps .left_wrist with
  | some leftShoulder, some leftElbow, some leftWrist =>
      if leftShoulder.visibility > 0.4 ∧ leftElbow.visibility > 0.4 ∧
         leftWrist.visibility > 0.4 then
        let elbowAngle := getAngle (some leftShoulder) (some leftElbow) (some leftWrist)
        let s1 :=
          if elbowAngle < 70 then
            (s.1 ++ [.left_elbow, .left_wrist, .left_shoulder], "Go deeper - chest to ground")
          else if elbowAngle > 170 then
            (s.1 ++ [.left_elbow], "Lock out at top")
          else s
        -- inner guard `leftElbow && leftShoulder && leftElbow.visibility > 0.4`
        -- (presence already holds in this branch)
        if leftElbow.visibility > 0.4 then
          let elbowFlare := jsAbs (leftElbow.x - leftShoulder.x)
          if elbowFlare > 80 then
            (s1.1 ++ [.left_elbow, .left_shoulder], "Keep elbows tucked - 45° angle")
          else s1
        else s1
      else s
  | _, _, _ => s

/-- The push-up section of `checkForm`. -/
noncomputable def pushupFormSection (kps : List Keypoint) (s : FormAcc) : FormAcc :=
  pushupElbowBlock kps (pushupBodyBlock kps s)

open Classical in
/-- Pull-up block 1: graded elbow angle feedback. -/
noncomputable def pullupElbowBlock (kps : List Keypoint) (s : FormAcc) : FormAcc :=
  match Lkp kps .left_shoulder, Lkp kps .left_elbow, Lkp kps .left_wrist with
  | some leftShoulder, some leftElbow, some leftWrist =>
      if leftShoulder.visibility > 0.4 ∧ leftElbow.visibility > 0.4 ∧
         leftWrist.visibility > 0.4 then
        let elbowAngle := getAngle (some leftShoulder) (some leftElbow) (some leftWrist)
        if elbowAngle < 40 then
          (s.1 ++ [.left_elbow, .left_shoulder, .left_wrist], "Perfect pull! Chin over bar")
        else if elbowAngle > 160 then
          (s.1 ++ [.left_elbow, .left_shoulder], "Pull higher - chin over bar")
        else if elbowAngle > 100 ∧ elbowAngle < 140 then
          (s.1 ++ [.left_elbow], "Full range - pull all the way up")
        else s
      else s
  | _, _, _ => s

/-- Pull-up block 2: shoulder engagement. -/
def pullupShoulderBlock (kps : List Keypoint) (s : FormAcc) : FormAcc :=
  match Lkp kps .left_shoulder, Lkp kps .left_elbow with
  | some leftShoulder, some leftElbow =>
      if leftShoulder.visibility > 0.4 ∧ leftElbow.visibility > 0.4 then
        let shoulderEngagement := jsAbs (leftShoulder.y - leftElbow.y)
        if shoulderEngagement < 30 then
          (s.1 ++ [.left_shoulder, .left_elbow], "Engage shoulders - don't hang")
        else s
      else s
  | _, _ => s

/-- Pull-up block 3: swinging/kipping (hip shift). -/
def pullupHipBlock (kps : List Keypoint) (s : FormAcc) : FormAcc :=
  match Lkp kps .left_hip, Lkp kps .right_hip with
  | some leftHip, some rightHip =>
      if leftHip.visibility > 0.4 ∧ rightHip.visibility > 0.4 then
        let hipShift := jsAbs (leftHip.x - rightHip.x)
        if hipShift > 100 then
          (s.1 ++ [.left_hip, .right_hip], "Stop swinging - strict form")
        else s
      else s
  | _, _ => s

open Classical in
/-- Pull-up block 4: body arch (shoulder-hip-knee). -/
noncomputable def pullupArchBlock (kps : List Keypoint) (s : FormAcc) : FormAcc :=
  match Lkp kps .left_shoulder, Lkp kps .left_hip, Lkp kps .left_knee with
  | some leftShoulder, some leftHip, some leftKnee =>
      if leftShoulder.visibility > 0.4 ∧ leftHip.visibility > 0.4 ∧
         leftKnee.visibility > 0.4 then
        let bodyArch := getAngle (some leftShoulder) (some leftHip) (some leftKnee)
        if bodyArch < 140 then
          (s.1 ++ [.left_hip, .left_knee], "Keep body straight - don't arch")
        else s
      else s
  | _, _, _ => s

/-- The pull-up section of `checkForm`. -/
noncomputable def pullupFormSection (kps : List Keypoint) (s : FormAcc) : FormAcc :=
  pullupArchBlock kps (pullupHipBlock kps (pullupShoulderBlock kps (pullupElbowBlock kps s)))

open Classical in
/-- Lunge block 1: front knee angle and front-knee-over-toes. -/
noncomputable def lungeFrontKneeBlock (kps : List Keypoint) (s : FormAcc) : FormAcc :=
  match Lkp kps .left_hip, Lkp kps .left_knee, Lkp kps .left_ankle with
  | some leftHip, some leftKnee, some leftAnkle =>
      if leftHip.visibility > 0.4 ∧ leftKnee.visibility > 0.4 ∧
         leftAnkle.visibility > 0.4 then
        let frontKneeAngle := getAngle (some leftHip) (some leftKnee) (some leftAnkle)
        let s1 :=
          if frontKneeAngle < 70 then
            (s.1 ++ [.left_knee, .left_hip, .left_ankle], "Don't go too deep - 90° knee angle")
          else if frontKneeAngle > 110 then
            (s.1 ++ [.left_knee], "Lower down - aim for 90° angle")
          else s
        if leftKnee.x > leftAnkle.x + 30 then
          (s1.1 ++ [.left_knee, .left_ankle], "Keep front knee behind toes")
        else s1
      else s
  | _, _, _ => s

open Classical in
/-- Lunge block 2: back knee angle (right leg). -/
noncomputable def lungeBackKneeBlock (kps : List Keypoint) (s : FormAcc) : FormAcc :=
  match Lkp kps .right_hip, Lkp kps .right_knee, Lkp kps .right_ankle with
  | some rightHip, some rightKnee, some rightAnkle =>
      if rightHip.visibility > 0.4 ∧ rightKnee.visibility > 0.4 ∧
         rightAnkle.visibility > 0.4 then
        let backKneeAngle := getAngle (some rightHip) (some rightKnee) (some rightAnkle)
        if backKneeAngle > 110 then
          (s.1 ++ [.right_knee, .right_hip], "Lower back knee closer to ground")
        else s
      else s
  | _, _, _ => s

/-- Lunge block 3: torso tilt and forward lean. -/
def lungeTorsoBlock (kps : List Keypoint) (s : FormAcc) : FormAcc :=
  match Lkp kps .left_shoulder, Lkp kps .left_hip with
  | some leftShoulder, some leftHip =>
      if leftShoulder.visibility > 0.4 ∧ leftHip.visibility > 0.4 then
        let torsoTilt := jsAbs (leftShoulder.x - leftHip.x)
        let s1 :=
          if torsoTilt > 50 then
            (s.1 ++ [.left_shoulder, .left_hip], "Keep torso upright & vertical")
          else s
        let shoulderHipAngle := jsAbs (leftShoulder.y - leftHip.y)
        if shoulderHipAngle < 40 then
          (s1.1 ++ [.left_shoulder, .left_hip], "Don't lean forward - stay upright")
        else s1
      else s
  | _, _ => s

/-- Lunge block 4: hip level. -/
def lungeHipLevelBlock (kps : List Keypoint) (s : FormAcc) : FormAcc :=
  match Lkp kps .left_hip, Lkp kps .right_hip with
  | some leftHip, some rightHip =>
      if leftHip.visibility > 0.4 ∧ rightHip.visibility > 0.4 then
        let hipTilt := jsAbs (leftHip.y - rightHip.y)
        if hipTilt > 30 then
          (s.1 ++ [.left_hip, .right_hip], "Keep hips level")
        else s
      else s
  | _, _ => s

/-- The lunge section of `checkForm`. -/
noncomputable def lungeFormSection (kps : List Keypoint) (s : FormAcc) : FormAcc :=
  lungeHipLevelBlock kps (lungeTorsoBlock kps (lungeBackKneeBlock kps (lungeFrontKneeBlock kps s)))

open Classical in
/-- Plank block 1: body alignment (shoulder-hip-ankle). -/
noncomputable def plankBodyBlock (kps : List Keypoint) (s : FormAcc) : FormAcc :=
  match Lkp kps .left_shoulder, Lkp kps .left_hip, Lkp kps .left_ankle with
  | some leftShoulder, some leftHip, some leftAnkle =>
      if leftShoulder.visibility > 0.4 ∧ leftHip.visibility > 0.4 ∧
         leftAnkle.visibility > 0.4 then
        let bodyAngle := getAngle (some leftShoulder) (some leftHip) (some leftAnkle)
        if bodyAngle < 165 then
          (s.1 ++ [.left_hip, .left_shoulder, .left_ankle], "Hips sagging - raise them up")
        else if bodyAngle > 195 then
          (s.1 ++ [.left_hip], "Hips too high - lower them down")
        else s
      else s
  | _, _, _ => s

open Classical in
/-- Plank block 2: forearm perpendicularity (elbow angle). -/
noncomputable def plankElbowBlock (kps : List Keypoint) (s : FormAcc) : FormAcc :=
  match Lkp kps .left_shoulder, Lkp kps .left_elbow, Lkp kps .left_wrist with
  | some leftShoulder, some leftElbow, some leftWrist =>
      if leftShoulder.visibility > 0.4 ∧ leftElbow.visibility > 0.4 ∧
         leftWrist.visibility > 0.4 then
        let elbowAngle := getAngle (some leftShoulder) (some leftElbow) (some leftWrist)
        if elbowAngle < 70 ∨ elbowAngle > 110 then
          (s.1 ++ [.left_elbow, .left_wrist], "Keep forearms perpendicular")
        else s
      else s
  | _, _, _ => s

/-- Plank block 3: shoulders over elbows. -/
def plankShoulderBlock (kps : List Keypoint) (s : FormAcc) : FormAcc :=
  match Lkp kps .left_shoulder, Lkp kps .left_elbow with
  | some leftShoulder, some leftElbow =>
      if leftShoulder.visibility > 0.4 ∧ leftElbow.visibility > 0.4 then
        let shoulderElbowDist := jsAbs (leftShoulder.x - leftElbow.x)
        if shoulderElbowDist > 50 then
          (s.1 ++ [.left_shoulder, .left_elbow], "Shoulders over elbows")
        else s
      else s
  | _, _ => s

/-- Plank block 4: neck alignment (nose vs shoulder height). -/
def plankNeckBlock (kps : List Keypoint) (s : FormAcc) : FormAcc :=
  match Lkp kps .left_shoulder, Lkp kps .nose with
  | some leftShoulder, some neck =>
      if leftShoulder.visibility > 0.4 ∧ neck.visibility > 0.4 then
        if neck.y < leftShoulder.y - 50 then
          (s.1 ++ [.left_shoulder], "Look down - neutral neck")
        else s
      else s
  | _, _ => s

/-- The plank section of `checkForm`. -/
noncomputable def plankFormSection (kps : List Keypoint) (s : FormAcc) : FormAcc :=
  plankNeckBlock kps (plankShoulderBlock kps (plankElbowBlock kps (plankBodyBlock kps s)))

open Classical in
/-- Jumping-jack block 1: arm straightness when the wrist is above the
shoulder. -/
noncomputable def jackArmBlock (kps : List Keypoint) (s : FormAcc) : FormAcc :=
  match Lkp kps .left_shoulder, Lkp kps .left_elbow, Lkp kps .left_wrist with
  | some leftShoulder, some leftElbow, some leftWrist =>
      if leftShoulder.visibility > 0.4 ∧ leftElbow.visibility > 0.4 ∧
         leftWrist.visibility > 0.4 then
        let armAngle := getAngle (some leftShoulder) (some leftElbow) (some leftWrist)
        if leftWrist.y < leftShoulder.y ∧ armAngle < 150 then
          (s.1 ++ [.left_elbow, .left_wrist], "Straighten arms overhead")
        else s
      else s
  | _, _, _ => s

open Classical in
/-- Jumping-jack block 2: leg straightness. -/
noncomputable def jackLegBlock (kps : List Keypoint) (s : FormAcc) : FormAcc :=
  match Lkp kps .left_hip, Lkp kps .left_knee, Lkp kps .left_ankle with
  | some leftHip, some leftKnee, some leftAnkle =>
      if leftHip.visibility > 0.4 ∧ leftKnee.visibility > 0.4 ∧
         leftAnkle.visibility > 0.4 then
        let legAngle := getAngle (some leftHip) (some leftKnee) (some leftAnkle)
        if legAngle < 160 then
          (s.1 ++ [.left_knee], "Keep legs straight during jump")
        else s
      else s
  | _, _, _ => s

/-- Jumping-jack block 3: landing stability (ankle level difference). -/
def jackLandingBlock (kps : List Keypoint) (s : FormAcc) : FormAcc :=
  match Lkp kps .left_ankle, Lkp kps .right_ankle with
  | some leftAnkle, some rightAnkle =>
      if leftAnkle.visibility > 0.4 ∧ rightAnkle.visibility > 0.4 then
        let ankleLevelDiff := jsAbs (leftAnkle.y - rightAnkle.y)
        if ankleLevelDiff > 40 then
          (s.1 ++ [.left_ankle, .right_ankle], "Land with both feet together")
        else s
      else s
  | _, _ => s

/-- The jumping-jack section of `checkForm`. -/
noncomputable def jackFormSection (kps : List Keypoint) (s : FormAcc) : FormAcc :=
  jackLandingBlock kps (jackLegBlock kps (jackArmBlock kps s))

/-- The body of `checkForm` on the lower-cased exercise name: a fresh
accumulator `([], "")` threaded through the six independently-guarded exercise
sections (their `if` tests are NOT exclusive, unlike `countReps`). -/
noncomputable def checkFormCore (nameLower : String) (kps : List Keypoint) : FormAcc :=
  let s : FormAcc := ([], "")
  let s := if strIncludes nameLower "squat" then squatFormSection kps s else s
  let s := if strIncludes nameLower "push" ||
              (strIncludes nameLower "up" && strIncludes nameLower "push") then
             pushupFormSection kps s else s
  let s := if strIncludes nameLower "pull" then pullupFormSection kps s else s
  let s := if strIncludes nameLower "lunge" then lungeFormSection kps s else s
  let s := if strIncludes nameLower "plank" then plankFormSection kps s else s
  let s := if strIncludes nameLower "jack" || strIncludes nameLower "jump" then
             jackFormSection kps s else s
  s

/-- `checkForm(keypoints)`: computes the pass's results and REPLACES
`incorrectJoints` and `formFeedback` (`setIncorrectJoints(incorrect);
setFormFeedback(feedback)`). -/
noncomputable def checkForm (ex : Exercise) (kps : List Keypoint)
    (st : SessionState) : SessionState :=
  let out := checkFormCore (jsToLower ex.name) kps
  { st with incorrectJoints := out.1, formFeedback := out.2 }

/-! ### `checkForm` as a list of guarded checks

Refinement view, following the spec's description of the Form Evaluator: each
check is a condition, a set of flagged joints and a feedback string; a pass
folds the checks in program order, appending joints and overwriting feedback.
The conditions below are flattenings of the guards of the blocks above
(an `else if` contributes the negation of the earlier test). -/

/-- One form check: landmarks that must be visible for it to be able to fire,
its full firing condition on a frame, the joints it flags, and its feedback. -/
structure FormCheck where
  required : List LandmarkKey
  cond : List Keypoint → Prop
  joints : List LandmarkKey
  fb : String

open Classical in
/-- Applying one check to the `(incorrect, feedback)` accumulator:
append the joints, overwrite the feedback. -/
noncomputable def applyCheck (kps : List Keypoint) (s : FormAcc) (c : FormCheck) : FormAcc :=
  if c.cond kps then (s.1 ++ c.joints, c.fb) else s

open Classical in
/-- The sublist of checks whose condition holds on this frame. -/
noncomputable def firedChecks (kps : List Keypoint) : List FormCheck → List FormCheck
  | [] => []
  | c :: t => if c.cond kps then c :: firedChecks kps t else firedChecks kps t

def squatCheck1 : FormCheck where
  required := [.left_hip, .left_knee, .left_ankle]
  cond := fun kps =>
    match Lkp kps .left_hip, Lkp kps .left_knee, Lkp kps .left_ankle with
    | some hip, some knee, some ankle =>
        hip.visibility > 0.4 ∧ knee.visibility > 0.4 ∧ ankle.visibility > 0.4 ∧
        getAngle (some hip) (some knee) (some ankle) < 70
    | _, _, _ => False
  joints := [.left_knee, .left_hip, .left_ankle]
  fb := "Squat too deep - protect knees"

def squatCheck2 : FormCheck where
  required := [.left_hip, .left_knee, .left_ankle]
  cond := fun kps =>
    match Lkp kps .left_hip, Lkp kps .left_knee, Lkp kps .left_ankle with
    | some hip, some knee, some ankle =>
        hip.visibility > 0.4 ∧ knee.visibility > 0.4 ∧ ankle.visibility > 0.4 ∧
        ¬getAngle (some hip) (some knee) (some ankle) < 70 ∧
        getAngle (some hip) (some knee) (some ankle) > 110
    | _, _, _ => False
  joints := [.left_knee, .left_hip]
  fb := "Go deeper - aim for 90° knee angle"

def squatCheck3 : FormCheck where
  required := [.left_hip, .left_knee, .left_ankle]
  cond := fun kps =>
    match Lkp kps .left_hip, Lkp kps .left_knee, Lkp kps .left_ankle with
    | some hip, some knee, some ankle =>
        hip.visibility > 0.4 ∧ knee.visibility > 0.4 ∧ ankle.visibility > 0.4 ∧
        knee.x > ankle.x + 30
    | _, _, _ => False
  joints := [.left_knee, .left_ankle]
  fb := "Keep knees behind toes"

def squatCheck4 : FormCheck where
  required := [.left_shoulder, .left_hip, .left_knee]
  cond := fun kps =>
    match Lkp kps .left_shoulder, Lkp kps .left_hip, Lkp kps .left_knee with
    | some sh, some hip, some knee =>
        sh.visibility > 0.4 ∧ hip.visibility > 0.4 ∧ knee.visibility > 0.4 ∧
        getAngle (some sh) (some hip) (some knee) < 70
    | _, _, _ => False
  joints := [.left_hip, .left_shoulder, .left_knee]
  fb := "Hips too low - maintain hip angle"

def squatCheck5 : FormCheck where
  required := [.left_shoulder, .left_hip]
  cond := fun kps =>
    match Lkp kps .left_shoulder, Lkp kps .left_hip with
    | some sh, some hip =>
        sh.visibility > 0.4 ∧ hip.visibility > 0.4 ∧ jsAbs (sh.x - hip.x) > 60
    | _, _ => False
  joints := [.left_shoulder, .left_hip]
  fb := "Keep back straight & chest up"

def squatCheck6 : FormCheck where
  required := [.left_knee, .right_knee]
  cond := fun kps =>
    match Lkp kps .left_knee, Lkp kps .right_knee with
    | some lk, some rk =>
        lk.visibility > 0.4 ∧ rk.visibility > 0.4 ∧ jsAbs (lk.x - rk.x) < 60
    | _, _ => False
  joints := [.left_knee, .right_knee]
  fb := "Push knees outward - hip width"

def squatChecks : List FormCheck :=
  [squatCheck1, squatCheck2, squatCheck3, squatCheck4, squatCheck5, squatCheck6]

def pushupCheck1 : FormCheck where
  required := [.left_shoulder, .left_hip, .left_ankle]
  cond := fun kps =>
    match Lkp kps .left_shoulder, Lkp kps .left_hip, Lkp kps .left_ankle with
    | some sh, some hip, some ankle =>
        sh.visibility > 0.4 ∧ hip.visibility > 0.4 ∧ ankle.visibility > 0.4 ∧
        getAngle (some sh) (some hip) (some ankle) < 160
    | _, _, _ => False
  joints := [.left_shoulder, .left_hip, .left_ankle]
  fb := "Keep body straight - plank position"

def pushupCheck2 : FormCheck where
  required := [.left_shoulder, .left_hip, .left_ankle]
  cond := fun kps =>
    match Lkp kps .left_shoulder, Lkp kps .left_hip, Lkp kps .left_ankle with
    | some sh, some hip, some ankle =>
        sh.visibility > 0.4 ∧ hip.visibility > 0.4 ∧ ankle.visibility > 0.4 ∧
        (jsAbs (sh.y - hip.y) > 50 ∨ jsAbs (hip.y - ankle.y) > 50)
    | _, _, _ => False
  joints := [.left_hip]
  fb := "Don't let hips sag"

def pushupCheck3 : FormCheck where
  required := [.left_shoulder, .left_elbow, .left_wrist]
  cond := fun kps =>
    match Lkp kps .left_shoulder, Lkp kps .left_elbow, Lkp kps .left_wrist with
    | some sh, some el, some wr =>
        sh.visibility > 0.4 ∧ el.visibility > 0.4 ∧ wr.visibility > 0.4 ∧
        getAngle (some sh) (some el) (some wr) < 70
    | _, _, _ => False
  joints := [.left_elbow, .left_wrist, .left_shoulder]
  fb := "Go deeper - chest to ground"

def pushupCheck4 : FormCheck where
  required := [.left_shoulder, .left_elbow, .left_wrist]
  cond := fun kps =>
    match Lkp kps .left_shoulder, Lkp kps .left_elbow, Lkp kps .left_wrist with
    | some sh, some el, some wr =>
        sh.visibility > 0.4 ∧ el.visibility > 0.4 ∧ wr.visibility > 0.4 ∧
        ¬getAngle (some sh) (some el) (some wr) < 70 ∧
        getAngle (some sh) (some el) (some wr) > 170
    | _, _, _ => False
  joints := [.left_elbow]
  fb := "Lock out at top"

def pushupCheck5 : FormCheck where
  required := [.left_shoulder, .left_elbow, .left_wrist]
  cond := fun kps =>
    match Lkp kps .left_shoulder, Lkp kps .left_elbow, Lkp kps .left_wrist with
    | some sh, some el, some _wr =>
        sh.visibility > 0.4 ∧ el.visibility > 0.4 ∧ _wr.visibility > 0.4 ∧
        el.visibility > 0.4 ∧ jsAbs (el.x - sh.x) > 80
    | _, _, _ => False
  joints := [.left_elbow, .left_shoulder]
  fb := "Keep elbows tucked - 45° angle"

def pushupChecks : List FormCheck :=
  [pushupCheck1, pushupCheck2, pushupCheck3, pushupCheck4, pushupCheck5]

def pullupCheck1 : FormCheck where
  required := [.left_shoulder, .left_elbow, .left_wrist]
  cond := fun kps =>
    match Lkp kps .left_shoulder, Lkp kps .left_elbow, Lkp kps .left_wrist with
    | some sh, some el, some wr =>
        sh.visibility > 0.4 ∧ el.visibility > 0.4 ∧ wr.visibility > 0.4 ∧
        getAngle (some sh) (some el) (some wr) < 40
    | _, _, _ => False
  joints := [.left_elbow, .left_shoulder, .left_wrist]
  fb := "Perfect pull! Chin over bar"

def pullupCheck2 : FormCheck where
  required := [.left_shoulder, .left_elbow, .left_wrist]
  cond := fun kps =>
    match Lkp kps .left_shoulder, Lkp kps .left_elbow, Lkp kps .left_wrist with
    | some sh, some el, some wr =>
        sh.visibility > 0.4 ∧ el.visibility > 0.4 ∧ wr.visibility > 0.4 ∧
        ¬getAngle (some sh) (some el) (some wr) < 40 ∧
        getAngle (some sh) (some el) (some wr) > 160
    | _, _, _ => False
  joints := [.left_elbow, .left_shoulder]
  fb := "Pull higher - chin over bar"

def pullupCheck3 : FormCheck where
  required := [.left_shoulder, .left_elbow, .left_wrist]
  cond := fun kps =>
    match Lkp kps .left_shoulder, Lkp kps .left_elbow, Lkp kps .left_wrist with
    | some sh, some el, some wr =>
        sh.visibility > 0.4 ∧ el.visibility > 0.4 ∧ wr.visibility > 0.4 ∧
        ¬getAngle (some sh) (some el) (some wr) < 40 ∧
        ¬getAngle (some sh) (some el) (some wr) > 160 ∧
        (getAngle (some sh) (some el) (some wr) > 100 ∧
         getAngle (some sh) (some el) (some wr) < 140)
    | _, _, _ => False
  joints := [.left_elbow]
  fb := "Full range - pull all the way up"

def pullupCheck4 : FormCheck where
  required := [.left_shoulder, .left_elbow]
  cond := fun kps =>
    match Lkp kps .left_shoulder, Lkp kps .left_elbow with
    | some sh, some el =>
        sh.visibility > 0.4 ∧ el.visibility > 0.4 ∧ jsAbs (sh.y - el.y) < 30
    | _, _ => False
  joints := [.left_shoulder, .left_elbow]
  fb := "Engage shoulders - don't hang"

def pullupCheck5 : FormCheck where
  required := [.left_hip, .right_hip]
  cond := fun kps =>
    match Lkp kps .left_hip, Lkp kps .right_hip with
    | some lh, some rh =>
        lh.visibility > 0.4 ∧ rh.visibility > 0.4 ∧ jsAbs (lh.x - rh.x) > 100
    | _, _ => False
  joints := [.left_hip, .right_hip]
  fb := "Stop swinging - strict form"

def pullupCheck6 : FormCheck where
  required := [.left_shoulder, .left_hip, .left_knee]
  cond := fun kps =>
    match Lkp kps .left_shoulder, Lkp kps .left_hip, Lkp kps .left_knee with
    | some sh, some hip, some knee =>
        sh.visibility > 0.4 ∧ hip.visibility > 0.4 ∧ knee.visibility > 0.4 ∧
        getAngle (some sh) (some hip) (some knee) < 140
    | _, _, _ => False
  joints := [.left_hip, .left_knee]
  fb := "Keep body straight - don't arch"

def pullupChecks : List FormCheck :=
  [pullupCheck1, pullupCheck2, pullupCheck3, pullupCheck4, pullupCheck5, pullupCheck6]

def lungeCheck1 : FormCheck where
  required := [.left_hip, .left_knee, .left_ankle]
  cond := fun kps =>
    match Lkp kps .left_hip, Lkp kps .left_knee, Lkp kps .left_ankle with
    | some hip, some knee, some ankle =>
        hip.visibility > 0.4 ∧ knee.visibility > 0.4 ∧ ankle.visibility > 0.4 ∧
        getAngle (some hip) (some knee) (some ankle) < 70
    | _, _, _ => False
  joints := [.left_knee, .left_hip, .left_ankle]
  fb := "Don't go too deep - 90° knee angle"

def lungeCheck2 : FormCheck where
  required := [.left_hip, .left_knee, .left_ankle]
  cond := fun kps =>
    match Lkp kps .left_hip, Lkp kps .left_knee, Lkp kps .left_ankle with
    | some hip, some knee, some ankle =>
        hip.visibility > 0.4 ∧ knee.visibility > 0.4 ∧ ankle.visibility > 0.4 ∧
        ¬getAngle (some hip) (some knee) (some ankle) < 70 ∧
        getAngle (some hip) (some knee) (some ankle) > 110
    | _, _, _ => False
  joints := [.left_knee]
  fb := "Lower down - aim for 90° angle"

def lungeCheck3 : FormCheck where
  required := [.left_hip, .left_knee, .left_ankle]
  cond := fun kps =>
    match Lkp kps .left_hip, Lkp kps .left_knee, Lkp kps .left_ankle with
    | some hip, some knee, some ankle =>
        hip.visibility > 0.4 ∧ knee.visibility > 0.4 ∧ ankle.visibility > 0.4 ∧
        knee.x > ankle.x + 30
    | _, _, _ => False
  joints := [.left_knee, .left_ankle]
  fb := "Keep front knee behind toes"

def lungeCheck4 : FormCheck where
  required := [.right_hip, .right_knee, .right_ankle]
  cond := fun kps =>
    match Lkp kps .right_hip, Lkp kps .right_knee, Lkp kps .right_ankle with
    | some hip, some knee, some ankle =>
        hip.visibility > 0.4 ∧ knee.visibility > 0.4 ∧ ankle.visibility > 0.4 ∧
        getAngle (some hip) (some knee) (some ankle) > 110
    | _, _, _ => False
  joints := [.right_knee, .right_hip]
  fb := "Lower back knee closer to ground"

def lungeCheck5 : FormCheck where
  required := [.left_shoulder, .left_hip]
  cond := fun kps =>
    match Lkp kps .left_shoulder, Lkp kps .left_hip with
    | some sh, some hip =>
        sh.visibility > 0.4 ∧ hip.visibility > 0.4 ∧ jsAbs (sh.x - hip.x) > 50
    | _, _ => False
  joints := [.left_shoulder, .left_hip]
  fb := "Keep torso upright & vertical"

def lungeCheck6 : FormCheck where
  required := [.left_shoulder, .left_hip]
  cond := fun kps =>
    match Lkp kps .left_shoulder, Lkp kps .left_hip with
    | some sh, some hip =>
        sh.visibility > 0.4 ∧ hip.visibility > 0.4 ∧ jsAbs (sh.y - hip.y) < 40
    | _, _ => False
  joints := [.left_shoulder, .left_hip]
  fb := "Don't lean forward - stay upright"

def lungeCheck7 : FormCheck where
  required := [.left_hip, .right_hip]
  cond := fun kps =>
    match Lkp kps .left_hip, Lkp kps .right_hip with
    | some lh, some rh =>
        lh.visibility > 0.4 ∧ rh.visibility > 0.4 ∧ jsAbs (lh.y - rh.y) > 30
    | _, _ => False
  joints := [.left_hip, .right_hip]
  fb := "Keep hips level"

def lungeChecks : List FormCheck :=
  [lungeCheck1, lungeCheck2, lungeCheck3, lungeCheck4, lungeCheck5, lungeCheck6, lungeCheck7]

def plankCheck1 : FormCheck where
  required := [.left_shoulder, .left_hip, .left_ankle]
  cond := fun kps =>
    match Lkp kps .left_shoulder, Lkp kps .left_hip, Lkp kps .left_ankle with
    | some sh, some hip, some ankle =>
        sh.visibility > 0.4 ∧ hip.visibility > 0.4 ∧ ankle.visibility > 0.4 ∧
        getAngle (some sh) (some hip) (some ankle) < 165
    | _, _, _ => False
  joints := [.left_hip, .left_shoulder, .left_ankle]
  fb := "Hips sagging - raise them up"

def plankCheck2 : FormCheck where
  required := [.left_shoulder, .left_hip, .left_ankle]
  cond := fun kps =>
    match Lkp kps .left_shoulder, Lkp kps .left_hip, Lkp kps .left_ankle with
    | some sh, some hip, some ankle =>
        sh.visibility > 0.4 ∧ hip.visibility > 0.4 ∧ ankle.visibility > 0.4 ∧
        ¬getAngle (some sh) (some hip) (some ankle) < 165 ∧
        getAngle (some sh) (some hip) (some ankle) > 195
    | _, _, _ => False
  joints := [.left_hip]
  fb := "Hips too high - lower them down"

def plankCheck3 : FormCheck where
  required := [.left_shoulder, .left_elbow, .left_wrist]
  cond := fun kps =>
    match Lkp kps .left_shoulder, Lkp kps .left_elbow, Lkp kps .left_wrist with
    | some sh, some el, some wr =>
        sh.visibility > 0.4 ∧ el.visibility > 0.4 ∧ wr.visibility > 0.4 ∧
        (getAngle (some sh) (some el) (some wr) < 70 ∨
         getAngle (some sh) (some el) (some wr) > 110)
    | _, _, _ => False
  joints := [.left_elbow, .left_wrist]
  fb := "Keep forearms perpendicular"

def plankCheck4 : FormCheck where
  required := [.left_shoulder, .left_elbow]
  cond := fun kps =>
    match Lkp kps .left_shoulder, Lkp kps .left_elbow with
    | some sh, some el =>
        sh.visibility > 0.4 ∧ el.visibility > 0.4 ∧ jsAbs (sh.x - el.x) > 50
    | _, _ => False
  joints := [.left_shoulder, .left_elbow]
  fb := "Shoulders over elbows"

def plankCheck5 : FormCheck where
  required := [.left_shoulder, .nose]
  cond := fun kps =>
    match Lkp kps .left_shoulder, Lkp kps .nose with
    | some sh, some nk =>
        sh.visibility > 0.4 ∧ nk.visibility > 0.4 ∧ nk.y < sh.y - 50
    | _, _ => False
  joints := [.left_shoulder]
  fb := "Look down - neutral neck"

def plankChecks : List FormCheck :=
  [plankCheck1, plankCheck2, plankCheck3, plankCheck4, plankCheck5]

def jackCheck1 : FormCheck where
  required := [.left_shoulder, .left_elbow, .left_wrist]
  cond := fun kps =>
    match Lkp kps .left_shoulder, Lkp kps .left_elbow, Lkp kps .left_wrist with
    | some sh, some el, some wr =>
        sh.visibility > 0.4 ∧ el.visibility > 0.4 ∧ wr.visibility > 0.4 ∧
        (wr.y < sh.y ∧ getAngle (some sh) (some el) (some wr) < 150)
    | _, _, _ => False
  joints := [.left_elbow, .left_wrist]
  fb := "Straighten arms overhead"

def jackCheck2 : FormCheck where
  required := [.left_hip, .left_knee, .left_ankle]
  cond := fun kps =>
    match Lkp kps .left_hip, Lkp kps .left_knee, Lkp kps .left_ankle with
    | some hip, some knee, some ankle =>
        hip.visibility > 0.4 ∧ knee.visibility > 0.4 ∧ ankle.visibility > 0.4 ∧
        getAngle (some hip) (some knee) (some ankle) < 160
    | _, _, _ => False
  joints := [.left_knee]
  fb := "Keep legs straight during jump"

def jackCheck3 : FormCheck where
  required := [.left_ankle, .right_ankle]
  cond := fun kps =>
    match Lkp kps .left_ankle, Lkp kps .right_ankle with
    | some la, some ra =>
        la.visibility > 0.4 ∧ ra.visibility > 0.4 ∧ jsAbs (la.y - ra.y) > 40
    | _, _ => False
  joints := [.left_ankle, .right_ankle]
  fb := "Land with both feet together"

def jackChecks : List FormCheck := [jackCheck1, jackCheck2, jackCheck3]

/-- All checks run on one frame for the given (lower-cased) exercise name, in
program order.  The name tests mirror the section guards in `checkForm`. -/
def formChecks (nameLower : String) : List FormCheck :=
  (if strIncludes nameLower "squat" then squatChecks else []) ++
  (if strIncludes nameLower "push" ||
      (strIncludes nameLower "up" && strIncludes nameLower "push") then
     pushupChecks else []) ++
  (if strIncludes nameLower "pull" then pullupChecks else []) ++
  (if strIncludes nameLower "lunge" then lungeChecks else []) ++
  (if strIncludes nameLower "plank" then plankChecks else []) ++
  (if strIncludes nameLower "jack" || strIncludes nameLower "jump" then
     jackChecks else [])

/-! ## The per-frame pipeline (`onPoseResults`) -/

/-- `onPoseResults`: skips everything unless detection is active; with
landmarks present it runs `checkForm` then `countReps` on the same frame
(drawing is presentation-only and not modelled). -/
noncomputable def onPoseResults (ex : Exercise) (now : String)
    (res : Option (List Keypoint)) (st : SessionState) : SessionState :=
  if !st.isDetecting then st
  else
    match res with
    | some kps => countReps ex now kps (checkForm ex kps st)
    | none => st

/-- Feed a list of frames (each with landmarks present) through
`onPoseResults` in order. -/
noncomputable def runFrames (ex : Exercise) (now : String)
    (st : SessionState) (frames : List (List Keypoint)) : SessionState :=
  frames.foldl (fun s kps => onPoseResults ex now (some kps) s) st

/-! ## Auxiliary predicates used by the statements -/

/-- Every landmark of `req` is found in the frame with visibility strictly
above the 0.4 threshold. -/
def allVisible (req : List LandmarkKey) (kps : List Keypoint) : Prop :=
  ∀ n ∈ req, ∃ p, Lkp kps n = some p ∧ p.visibility > 0.4

/-- The landmarks whose presence and visibility gate each exercise's rep
signal in `countReps`. -/
def repRequired : ExKind → List LandmarkKey
  | .squat => [.left_hip, .left_knee]
  | .pushup => [.left_shoulder, .left_elbow, .left_wrist]
  | .pullup => [.left_shoulder, .left_elbow, .left_wrist]
  | .lunge => [.left_hip, .left_knee, .left_ankle]
  | .jack => [.left_wrist, .left_shoulder, .left_ankle, .right_ankle]
  | .other => []

/-- The jumping-jack "fully closed" frame condition: all four gating landmarks
visible, arms not raised (`!armsUp`) and legs not spread (`!legsSpread`) —
the only way `countReps` moves the phase to `down` for a jack. -/
def jackClosed (kps : List Keypoint) : Prop :=
  match Lkp kps .left_wrist, Lkp kps .left_shoulder, Lkp kps .left_ankle,
        Lkp kps .right_ankle with
  | some w, some sh, some la, some ra =>
      w.visibility > 0.4 ∧ sh.visibility > 0.4 ∧ la.visibility > 0.4 ∧
      ra.visibility > 0.4 ∧ ¬(w.y < sh.y - 50) ∧ ¬(jsAbs (la.x - ra.x) > 80)
  | _, _, _, _ => False

/-- A jumping-jack frame in which exactly one of the two compound conditions
(`armsUp`, `legsSpread`) holds (visibility unconstrained). -/
def jackHalfOpen (kps : List Keypoint) : Prop :=
  match Lkp kps .left_wrist, Lkp kps .left_shoulder, Lkp kps .left_ankle,
        Lkp kps .right_ankle with
  | some w, some sh, some la, some ra =>
      (w.y < sh.y - 50 ∧ ¬(jsAbs (la.x - ra.x) > 80)) ∨
      (¬(w.y < sh.y - 50) ∧ jsAbs (la.x - ra.x) > 80)
  | _, _, _, _ => False

/-! ## Concrete evaluation inputs -/

/-- A squat catalog entry. -/
def squatsEx : Exercise :=
  { id := "1", name := "Squats", description := "Basic squats",
    video_url := "", category := "strength", difficulty := "easy" }

/-- A jumping-jack catalog entry. -/
def jacksEx : Exercise :=
  { id := "2", name := "Jumping Jacks", description := "Jumping jacks",
    video_url := "", category := "cardio", difficulty := "easy" }

/-- A push-up catalog entry. -/
def pushupsEx : Exercise :=
  { id := "3", name := "Push-Ups", description := "Push-ups",
    video_url := "", category := "strength", difficulty := "easy" }

/-- A pull-up catalog entry. -/
def pullupsEx : Exercise :=
  { id := "4", name := "Pull-Ups", description := "Pull-ups",
    video_url := "", category := "strength", difficulty := "hard" }

/-- A lunge catalog entry. -/
def lungesEx : Exercise :=
  { id := "5", name := "Lunges", description := "Lunges",
    video_url := "", category := "strength", difficulty := "easy" }

/-- A squat frame with hip-knee vertical distance 150 (above the
up-threshold 120); only the two rep-gating landmarks are present. -/
def sqFrameHigh : List Keypoint :=
  [{ name := .left_hip, x := 100, y := 300, visibility := 1 },
   { name := .left_knee, x := 100, y := 450, visibility := 1 }]

/-- A squat frame with hip-knee vertical distance 60 (below the
down-threshold 80). -/
def sqFrameLow : List Keypoint :=
  [{ name := .left_hip, x := 100, y := 300, visibility := 1 },
   { name := .left_knee, x := 100, y := 360, visibility := 1 }]

/-- A squat frame with hip-knee vertical distance 100, strictly between the
two thresholds 80 and 120. -/
def sqFrameMid : List Keypoint :=
  [{ name := .left_hip, x := 100, y := 300, visibility := 1 },
   { name := .left_knee, x := 100, y := 400, visibility := 1 }]

/-- A push-up frame whose elbow angle is exactly 135°: the shoulder→elbow ray
points along `(1, 0)` and the elbow→wrist ray along `(1, 1)`. -/
def puFrame135 : List Keypoint :=
  [{ name := .left_shoulder, x := -1, y := 0, visibility := 1 },
   { name := .left_elbow, x := 0, y := 0, visibility := 1 },
   { name := .left_wrist, x := 1, y := 1, visibility := 1 }]

/-- A pull-up frame whose elbow angle is exactly 90°. -/
def plFrame90 : List Keypoint :=
  [{ name := .left_shoulder, x := 0, y := 1, visibility := 1 },
   { name := .left_elbow, x := 0, y := 0, visibility := 1 },
   { name := .left_wrist, x := 1, y := 0, visibility := 1 }]

/-- A lunge frame whose knee angle is exactly 90°. -/
def luFrame90 : List Keypoint :=
  [{ name := .left_hip, x := 0, y := 1, visibility := 1 },
   { name := .left_knee, x := 0, y := 0, visibility := 1 },
   { name := .left_ankle, x := 1, y := 0, visibility := 1 }]

/-- A jumping-jack frame in the fully open position: arms raised and legs
spread (not `jackClosed`). -/
def jackOpenFrame : List Keypoint :=
  [{ name := .left_wrist, x := 100, y := 0, visibility := 1 },
   { name := .left_shoulder, x := 100, y := 100, visibility := 1 },
   { name := .left_ankle, x := 50, y := 400, visibility := 1 },
   { name := .right_ankle, x := 200, y := 400, visibility := 1 }]

/-- A jumping-jack frame with arms raised but legs together: exactly one of
the two compound conditions holds. -/
def jackHalfFrame : List Keypoint :=
  [{ name := .left_wrist, x := 100, y := 0, visibility := 1 },
   { name := .left_shoulder, x := 100, y := 100, visibility := 1 },
   { name := .left_ankle, x := 100, y := 400, visibility := 1 },
   { name := .right_ankle, x := 150, y := 400, visibility := 1 }]

/-- A mid-session running state used for concrete evaluations. -/
def runningState : SessionState :=
  { step := .exercise, targetReps := "5", currentReps := 0, isDetecting := true,
    formFeedback := "", incorrectJoints := [], phase := .up,
    cameraOn := true, poseOn := true, sounds := 0, saved := [] }

/-! # Lemmas -/

/-! ## Basic state-update lemmas -/

lemma incrementReps_currentReps (ex : Exercise) (now : String) (st : SessionState) :
    (incrementReps ex now st).currentReps = st.currentReps + 1 := rfl

lemma incrementReps_phase (ex : Exercise) (now : String) (st : SessionState) :
    (incrementReps ex now st).phase = st.phase := by
  simp only [incrementReps, saveWorkoutHistory]
  split <;> rfl

lemma checkForm_phase (ex : Exercise) (kps : List Keypoint) (st : SessionState) :
    (checkForm ex kps st).phase = st.phase := rfl

lemma checkForm_currentReps (ex : Exercise) (kps : List Keypoint) (st : SessionState) :
    (checkForm ex kps st).currentReps = st.currentReps := rfl

lemma checkForm_isDetecting (ex : Exercise) (kps : List Keypoint) (st : SessionState) :
    (checkForm ex kps st).isDetecting = st.isDetecting := rfl

/-! ## `checkForm` refinement: blocks are folds of their checks -/

lemma foldl_applyCheck (kps : List Keypoint) (cs : List FormCheck) (s : FormAcc) :
    List.foldl (applyCheck kps) s cs =
      (s.1 ++ (firedChecks kps cs).flatMap (fun c => c.joints),
       ((firedChecks kps cs).map (fun c => c.fb)).getLastD s.2) := by
  induction cs generalizing s with
  | nil => simp [firedChecks]
  | cons c t ih =>
      rw [List.foldl_cons]
      by_cases h : c.cond kps
      · rw [show applyCheck kps s c = (s.1 ++ c.joints, c.fb) from if_pos h, ih]
        rw [show firedChecks kps (c :: t) = c :: firedChecks kps t by
              simp only [firedChecks, if_pos h]]
        rw [List.flatMap_cons, List.map_cons, List.getLastD_cons, List.append_assoc]
      · rw [show applyCheck kps s c = s from if_neg h, ih]
        rw [show firedChecks kps (c :: t) = firedChecks kps t by
              simp only [firedChecks, if_neg h]]

lemma squatKneeBlock_eq (kps : List Keypoint) (s : FormAcc) :
    squatKneeBlock kps s =
      List.foldl (applyCheck kps) s [squatCheck1, squatCheck2, squatCheck3] := by
  rcases hh : Lkp kps .left_hip with _ | hip <;>
  rcases hk : Lkp kps .left_knee with _ | knee <;>
  rcases ha : Lkp kps .left_ankle with _ | ankle <;>
    simp only [List.foldl_cons, List.foldl_nil, applyCheck, squatCheck1, squatCheck2,
      squatCheck3, squatKneeBlock, hh, hk, ha] <;>
    split_ifs <;> simp_all

lemma squatHipBlock_eq (kps : List Keypoint) (s : FormAcc) :
    squatHipBlock kps s = List.foldl (applyCheck kps) s [squatCheck4] := by
  rcases hs : Lkp kps .left_shoulder with _ | sh <;>
  rcases hh : Lkp kps .left_hip with _ | hip <;>
  rcases hk : Lkp kps .left_knee with _ | knee <;>
    simp only [List.foldl_cons, List.foldl_nil, applyCheck, squatCheck4,
      squatHipBlock, hs, hh, hk] <;>
    split_ifs <;> simp_all

lemma squatBackBlock_eq (kps : List Keypoint) (s : FormAcc) :
    squatBackBlock kps s = List.foldl (applyCheck kps) s [squatCheck5] := by
  rcases hs : Lkp kps .left_shoulder with _ | sh <;>
  rcases hh : Lkp kps .left_hip with _ | hip <;>
    simp only [List.foldl_cons, List.foldl_nil, applyCheck, squatCheck5,
      squatBackBlock, hs, hh] <;>
    split_ifs <;> simp_all

lemma squatKneeWidthBlock_eq (kps : List Keypoint) (s : FormAcc) :
    squatKneeWidthBlock kps s = List.foldl (applyCheck kps) s [squatCheck6] := by
  rcases hl : Lkp kps .left_knee with _ | lk <;>
  rcases hr : Lkp kps .right_knee with _ | rk <;>
    simp only [List.foldl_cons, List.foldl_nil, applyCheck, squatCheck6,
      squatKneeWidthBlock, hl, hr] <;>
    split_ifs <;> simp_all

lemma pushupBodyBlock_eq (kps : List Keypoint) (s : FormAcc) :
    pushupBodyBlock kps s = List.foldl (applyCheck kps) s [pushupCheck1, pushupCheck2] := by
  rcases hs : Lkp kps .left_shoulder with _ | sh <;>
  rcases hh : Lkp kps .left_hip with _ | hip <;>
  rcases ha : Lkp kps .left_ankle with _ | ankle <;>
    simp only [List.foldl_cons, List.foldl_nil, applyCheck, pushupCheck1, pushupCheck2,
      pushupBodyBlock, hs, hh, ha] <;>
    split_ifs <;> simp_all

lemma pushupElbowBlock_eq (kps : List Keypoint) (s : FormAcc) :
    pushupElbowBlock kps s =
      List.foldl (applyCheck kps) s [pushupCheck3, pushupCheck4, pushupCheck5] := by
  rcases hs : Lkp kps .left_shoulder with _ | sh <;>
  rcases he : Lkp kps .left_elbow with _ | el <;>
  rcases hw : Lkp kps .left_wrist with _ | wr <;>
    simp only [List.foldl_cons, List.foldl_nil, applyCheck, pushupCheck3, pushupCheck4,
      pushupCheck5, pushupElbowBlock, hs, he, hw] <;>
    split_ifs <;> simp_all

lemma pullupElbowBlock_eq (kps : List Keypoint) (s : FormAcc) :
    pullupElbowBlock kps s =
      List.foldl (applyCheck kps) s [pullupCheck1, pullupCheck2, pullupCheck3] := by
  rcases hs : Lkp kps .left_shoulder with _ | sh <;>
  rcases he : Lkp kps .left_elbow with _ | el <;>
  rcases hw : Lkp kps .left_wrist with _ | wr <;>
    simp only [List.foldl_cons, List.foldl_nil, applyCheck, pullupCheck1, pullupCheck2,
      pullupCheck3, pullupElbowBlock, hs, he, hw] <;>
    split_ifs <;> simp_all

lemma pullupShoulderBlock_eq (kps : List Keypoint) (s : FormAcc) :
    pullupShoulderBlock kps s = List.foldl (applyCheck kps) s [pullupCheck4] := by
  rcases hs : Lkp kps .left_shoulder with _ | sh <;>
  rcases he : Lkp kps .left_elbow with _ | el <;>
    simp only [List.foldl_cons, List.foldl_nil, applyCheck, pullupCheck4,
      pullupShoulderBlock, hs, he] <;>
    split_ifs <;> simp_all

lemma pullupHipBlock_eq (kps : List Keypoint) (s : FormAcc) :
    pullupHipBlock kps s = List.foldl (applyCheck kps) s [pullupCheck5] := by
  rcases hl : Lkp kps .left_hip with _ | lh <;>
  rcases hr : Lkp kps .right_hip with _ | rh <;>
    simp only [List.foldl_cons, List.foldl_nil, applyCheck, pullupCheck5,
      pullupHipBlock, hl, hr] <;>
    split_ifs <;> simp_all

lemma pullupArchBlock_eq (kps : List Keypoint) (s : FormAcc) :
    pullupArchBlock kps s = List.foldl (applyCheck kps) s [pullupCheck6] := by
  rcases hs : Lkp kps .left_shoulder with _ | sh <;>
  rcases hh : Lkp kps .left_hip with _ | hip <;>
  rcases hk : Lkp kps .left_knee with _ | knee <;>
    simp only [List.foldl_cons, List.foldl_nil, applyCheck, pullupCheck6,
      pullupArchBlock, hs, hh, hk] <;>
    split_ifs <;> simp_all

lemma lungeFrontKneeBlock_eq (kps : List Keypoint) (s : FormAcc) :
    lungeFrontKneeBlock kps s =
      List.foldl (applyCheck kps) s [lungeCheck1, lungeCheck2, lungeCheck3] := by
  rcases hh : Lkp kps .left_hip with _ | hip <;>
  rcases hk : Lkp kps .left_knee with _ | knee <;>
  rcases ha : Lkp kps .left_ankle with _ | ankle <;>
    simp only [List.foldl_cons, List.foldl_nil, applyCheck, lungeCheck1, lungeCheck2,
      lungeCheck3, lungeFrontKneeBlock, hh, hk, ha] <;>
    split_ifs <;> simp_all

lemma lungeBackKneeBlock_eq (kps : List Keypoint) (s : FormAcc) :
    lungeBackKneeBlock kps s = List.foldl (applyCheck kps) s [lungeCheck4] := by
  rcases hh : Lkp kps .right_hip with _ | hip <;>
  rcases hk : Lkp kps .right_knee with _ | knee <;>
  rcases ha : Lkp kps .right_ankle with _ | ankle <;>
    simp only [List.foldl_cons, List.foldl_nil, applyCheck, lungeCheck4,
      lungeBackKneeBlock, hh, hk, ha] <;>
    split_ifs <;> simp_all

lemma lungeTorsoBlock_eq (kps : List Keypoint) (s : FormAcc) :
    lungeTorsoBlock kps s = List.foldl (applyCheck kps) s [lungeCheck5, lungeCheck6] := by
  rcases hs : Lkp kps .left_shoulder with _ | sh <;>
  rcases hh : Lkp kps .left_hip with _ | hip <;>
    simp only [List.foldl_cons, List.foldl_nil, applyCheck, lungeCheck5, lungeCheck6,
      lungeTorsoBlock, hs, hh] <;>
    split_ifs <;> simp_all

lemma lungeHipLevelBlock_eq (kps : List Keypoint) (s : FormAcc) :
    lungeHipLevelBlock kps s = List.foldl (applyCheck kps) s [lungeCheck7] := by
  rcases hl : Lkp kps .left_hip with _ | lh <;>
  rcases hr : Lkp kps .right_hip with _ | rh <;>
    simp only [List.foldl_cons, List.foldl_nil, applyCheck, lungeCheck7,
      lungeHipLevelBlock, hl, hr] <;>
    split_ifs <;> simp_all

lemma plankBodyBlock_eq (kps : List Keypoint) (s : FormAcc) :
    plankBodyBlock kps s = List.foldl (applyCheck kps) s [plankCheck1, plankCheck2] := by
  rcases hs : Lkp kps .left_shoulder with _ | sh <;>
  rcases hh : Lkp kps .left_hip with _ | hip <;>
  rcases ha : Lkp kps .left_ankle with _ | ankle <;>
    simp only [List.foldl_cons, List.foldl_nil, applyCheck, plankCheck1, plankCheck2,
      plankBodyBlock, hs, hh, ha] <;>
    split_ifs <;> simp_all

lemma plankElbowBlock_eq (kps : List Keypoint) (s : FormAcc) :
    plankElbowBlock kps s = List.foldl (applyCheck kps) s [plankCheck3] := by
  rcases hs : Lkp kps .left_shoulder with _ | sh <;>
  rcases he : Lkp kps .left_elbow with _ | el <;>
  rcases hw : Lkp kps .left_wrist with _ | wr <;>
    simp only [List.foldl_cons, List.foldl_nil, applyCheck, plankCheck3,
      plankElbowBlock, hs, he, hw] <;>
    split_ifs <;> simp_all

lemma plankShoulderBlock_eq (kps : List Keypoint) (s : FormAcc) :
    plankShoulderBlock kps s = List.foldl (applyCheck kps) s [plankCheck4] := by
  rcases hs : Lkp kps .left_shoulder with _ | sh <;>
  rcases he : Lkp kps .left_elbow with _ | el <;>
    simp only [List.foldl_cons, List.foldl_nil, applyCheck, plankCheck4,
      plankShoulderBlock, hs, he] <;>
    split_ifs <;> simp_all

lemma plankNeckBlock_eq (kps : List Keypoint) (s : FormAcc) :
    plankNeckBlock kps s = List.foldl (applyCheck kps) s [plankCheck5] := by
  rcases hs : Lkp kps .left_shoulder with _ | sh <;>
  rcases hn : Lkp kps .nose with _ | nk <;>
    simp only [List.foldl_cons, List.foldl_nil, applyCheck, plankCheck5,
      plankNeckBlock, hs, hn] <;>
    split_ifs <;> simp_all

lemma jackArmBlock_eq (kps : List Keypoint) (s : FormAcc) :
    jackArmBlock kps s = List.foldl (applyCheck kps) s [jackCheck1] := by
  rcases hs : Lkp kps .left_shoulder with _ | sh <;>
  rcases he : Lkp kps .left_elbow with _ | el <;>
  rcases hw : Lkp kps .left_wrist with _ | wr <;>
    simp only [List.foldl_cons, List.foldl_nil, applyCheck, jackCheck1,
      jackArmBlock, hs, he, hw] <;>
    split_ifs <;> simp_all

lemma jackLegBlock_eq (kps : List Keypoint) (s : FormAcc) :
    jackLegBlock kps s = List.foldl (applyCheck kps) s [jackCheck2] := by
  rcases hh : Lkp kps .left_hip with _ | hip <;>
  rcases hk : Lkp kps .left_knee with _ | knee <;>
  rcases ha : Lkp kps .left_ankle with _ | ankle <;>
    simp only [List.foldl_cons, List.foldl_nil, applyCheck, jackCheck2,
      jackLegBlock, hh, hk, ha] <;>
    split_ifs <;> simp_all

lemma jackLandingBlock_eq (kps : List Keypoint) (s : FormAcc) :
    jackLandingBlock kps s = List.foldl (applyCheck kps) s [jackCheck3] := by
  rcases hl : Lkp kps .left_ankle with _ | la <;>
  rcases hr : Lkp kps .right_ankle with _ | ra <;>
    simp only [List.foldl_cons, List.foldl_nil, applyCheck, jackCheck3,
      jackLandingBlock, hl, hr] <;>
    split_ifs <;> simp_all

lemma squatFormSection_eq (kps : List Keypoint) (s : FormAcc) :
    squatFormSection kps s = List.foldl (applyCheck kps) s squatChecks := by
  simp only [squatFormSection, squatChecks, squatKneeBlock_eq, squatHipBlock_eq,
    squatBackBlock_eq, squatKneeWidthBlock_eq, List.foldl_cons, List.foldl_nil]

lemma pushupFormSection_eq (kps : List Keypoint) (s : FormAcc) :
    pushupFormSection kps s = List.foldl (applyCheck kps) s pushupChecks := by
  simp only [pushupFormSection, pushupChecks, pushupBodyBlock_eq, pushupElbowBlock_eq,
    List.foldl_cons, List.foldl_nil]

lemma pullupFormSection_eq (kps : List Keypoint) (s : FormAcc) :
    pullupFormSection kps s = List.foldl (applyCheck kps) s pullupChecks := by
  simp only [pullupFormSection, pullupChecks, pullupElbowBlock_eq, pullupShoulderBlock_eq,
    pullupHipBlock_eq, pullupArchBlock_eq, List.foldl_cons, List.foldl_nil]

lemma lungeFormSection_eq (kps : List Keypoint) (s : FormAcc) :
    lungeFormSection kps s = List.foldl (applyCheck kps) s lungeChecks := by
  simp only [lungeFormSection, lungeChecks, lungeFrontKneeBlock_eq, lungeBackKneeBlock_eq,
    lungeTorsoBlock_eq, lungeHipLevelBlock_eq, List.foldl_cons, List.foldl_nil]

lemma plankFormSection_eq (kps : List Keypoint) (s : FormAcc) :
    plankFormSection kps s = List.foldl (applyCheck kps) s plankChecks := by
  simp only [plankFormSection, plankChecks, plankBodyBlock_eq, plankElbowBlock_eq,
    plankShoulderBlock_eq, plankNeckBlock_eq, List.foldl_cons, List.foldl_nil]

lemma jackFormSection_eq (kps : List Keypoint) (s : FormAcc) :
    jackFormSection kps s = List.foldl (applyCheck kps) s jackChecks := by
  simp only [jackFormSection, jackChecks, jackArmBlock_eq, jackLegBlock_eq,
    jackLandingBlock_eq, List.foldl_cons, List.foldl_nil]

/-- The literal `checkForm` body equals the fold of the flattened check list. -/
lemma checkFormCore_eq (nameLower : String) (kps : List Keypoint) :
    checkFormCore nameLower kps =
      List.foldl (applyCheck kps) ([], "") (formChecks nameLower) := by
  simp only [checkFormCore, formChecks]
  cases h1 : strIncludes nameLower "squat" <;>
  cases h2 : strIncludes nameLower "push" <;>
  cases h3 : strIncludes nameLower "up" <;>
  cases h4 : strIncludes nameLower "pull" <;>
  cases h5 : strIncludes nameLower "lunge" <;>
  cases h6 : strIncludes nameLower "plank" <;>
  cases h7 : strIncludes nameLower "jack" <;>
  cases h8 : strIncludes nameLower "jump" <;>
    simp [h1, h2, h3, h4, h5, h6, h7, h8, squatFormSection_eq, pushupFormSection_eq,
      pullupFormSection_eq, lungeFormSection_eq, plankFormSection_eq, jackFormSection_eq,
      List.foldl_append]

/-- Closed form of one `checkForm` pass: the flagged joints are the
concatenation of the joints of all fired checks, and the feedback is that of
the last fired check (empty when none fired). -/
lemma checkFormCore_spec (nameLower : String) (kps : List Keypoint) :
    checkFormCore nameLower kps =
      ((firedChecks kps (formChecks nameLower)).flatMap (fun c => c.joints),
       ((firedChecks kps (formChecks nameLower)).map (fun c => c.fb)).getLastD "") := by
  rw [checkFormCore_eq, foldl_applyCheck]
  rfl

lemma condVis_squatCheck1 (kps : List Keypoint) (hc : squatCheck1.cond kps) :
    allVisible squatCheck1.required kps := by
  simp only [squatCheck1] at hc
  rcases h1 : Lkp kps .left_hip with _ | p1 <;> simp [h1] at hc
  rcases h2 : Lkp kps .left_knee with _ | p2 <;> simp [h2] at hc
  rcases h3 : Lkp kps .left_ankle with _ | p3 <;> simp [h3] at hc
  intro n hn
  simp only [squatCheck1, List.mem_cons, List.not_mem_nil, or_false] at hn
  rcases hn with rfl | rfl | rfl
  · exact ⟨p1, h1, hc.1⟩
  · exact ⟨p2, h2, hc.2.1⟩
  · exact ⟨p3, h3, hc.2.2.1⟩

lemma condVis_squatCheck2 (kps : List Keypoint) (hc : squatCheck2.cond kps) :
    allVisible squatCheck2.required kps := by
  simp only [squatCheck2] at hc
  rcases h1 : Lkp kps .left_hip with _ | p1 <;> simp [h1] at hc
  rcases h2 : Lkp kps .left_knee with _ | p2 <;> simp [h2] at hc
  rcases h3 : Lkp kps .left_ankle with _ | p3 <;> simp [h3] at hc
  intro n hn
  simp only [squatCheck2, List.mem_cons, List.not_mem_nil, or_false] at hn
  rcases hn with rfl | rfl | rfl
  · exact ⟨p1, h1, hc.1⟩
  · exact ⟨p2, h2, hc.2.1⟩
  · exact ⟨p3, h3, hc.2.2.1⟩

lemma condVis_squatCheck3 (kps : List Keypoint) (hc : squatCheck3.cond kps) :
    allVisible squatCheck3.required kps := by
  simp only [squatCheck3] at hc
  rcases h1 : Lkp kps .left_hip with _ | p1 <;> simp [h1] at hc
  rcases h2 : Lkp kps .left_knee with _ | p2 <;> simp [h2] at hc
  rcases h3 : Lkp kps .left_ankle with _ | p3 <;> simp [h3] at hc
  intro n hn
  simp only [squatCheck3, List.mem_cons, List.not_mem_nil, or_false] at hn
  rcases hn with rfl | rfl | rfl
  · exact ⟨p1, h1, hc.1⟩
  · exact ⟨p2, h2, hc.2.1⟩
  · exact ⟨p3, h3, hc.2.2.1⟩

lemma condVis_squatCheck4 (kps : List Keypoint) (hc : squatCheck4.cond kps) :
    allVisible squatCheck4.required kps := by
  simp only [squatCheck4] at hc
  rcases h1 : Lkp kps .left_shoulder with _ | p1 <;> simp [h1] at hc
  rcases h2 : Lkp kps .left_hip with _ | p2 <;> simp [h2] at hc
  rcases h3 : Lkp kps .left_knee with _ | p3 <;> simp [h3] at hc
  intro n hn
  simp only [squatCheck4, List.mem_cons, List.not_mem_nil, or_false] at hn
  rcases hn with rfl | rfl | rfl
  · exact ⟨p1, h1, hc.1⟩
  · exact ⟨p2, h2, hc.2.1⟩
  · exact ⟨p3, h3, hc.2.2.1⟩

lemma condVis_squatCheck5 (kps : List Keypoint) (hc : squatCheck5.cond kps) :
    allVisible squatCheck5.required kps := by
  simp only [squatCheck5] at hc
  rcases h1 : Lkp kps .left_shoulder with _ | p1 <;> simp [h1] at hc
  rcases h2 : Lkp kps .left_hip with _ | p2 <;> simp [h2] at hc
  intro n hn
  simp only [squatCheck5, List.mem_cons, List.not_mem_nil, or_false] at hn
  rcases hn with rfl | rfl
  · exact ⟨p1, h1, hc.1⟩
  · exact ⟨p2, h2, hc.2.1⟩

lemma condVis_squatCheck6 (kps : List Keypoint) (hc : squatCheck6.cond kps) :
    allVisible squatCheck6.required kps := by
  simp only [squatCheck6] at hc
  rcases h1 : Lkp kps .left_knee with _ | p1 <;> simp [h1] at hc
  rcases h2 : Lkp kps .right_knee with _ | p2 <;> simp [h2] at hc
  intro n hn
  simp only [squatCheck6, List.mem_cons, List.not_mem_nil, or_false] at hn
  rcases hn with rfl | rfl
  · exact ⟨p1, h1, hc.1⟩
  · exact ⟨p2, h2, hc.2.1⟩

lemma condVis_pushupCheck1 (kps : List Keypoint) (hc : pushupCheck1.cond kps) :
    allVisible pushupCheck1.required kps := by
  simp only [pushupCheck1] at hc
  rcases h1 : Lkp kps .left_shoulder with _ | p1 <;> simp [h1] at hc
  rcases h2 : Lkp kps .left_hip with _ | p2 <;> simp [h2] at hc
  rcases h3 : Lkp kps .left_ankle with _ | p3 <;> simp [h3] at hc
  intro n hn
  simp only [pushupCheck1, List.mem_cons, List.not_mem_nil, or_false] at hn
  rcases hn with rfl | rfl | rfl
  · exact ⟨p1, h1, hc.1⟩
  · exact ⟨p2, h2, hc.2.1⟩
  · exact ⟨p3, h3, hc.2.2.1⟩

lemma condVis_pushupCheck2 (kps : List Keypoint) (hc : pushupCheck2.cond kps) :
    allVisible pushupCheck2.required kps := by
  simp only [pushupCheck2] at hc
  rcases h1 : Lkp kps .left_shoulder with _ | p1 <;> simp [h1] at hc
  rcases h2 : Lkp kps .left_hip with _ | p2 <;> simp [h2] at hc
  rcases h3 : Lkp kps .left_ankle with _ | p3 <;> simp [h3] at hc
  intro n hn
  simp only [pushupCheck2, List.mem_cons, List.not_mem_nil, or_false] at hn
  rcases hn with rfl | rfl | rfl
  · exact ⟨p1, h1, hc.1⟩
  · exact ⟨p2, h2, hc.2.1⟩
  · exact ⟨p3, h3, hc.2.2.1⟩

lemma condVis_pushupCheck3 (kps : List Keypoint) (hc : pushupCheck3.cond kps) :
    allVisible pushupCheck3.required kps := by
  simp only [pushupCheck3] at hc
  rcases h1 : Lkp kps .left_shoulder with _ | p1 <;> simp [h1] at hc
  rcases h2 : Lkp kps .left_elbow with _ | p2 <;> simp [h2] at hc
  rcases h3 : Lkp kps .left_wrist with _ | p3 <;> simp [h3] at hc
  intro n hn
  simp only [pushupCheck3, List.mem_cons, List.not_mem_nil, or_false] at hn
  rcases hn with rfl | rfl | rfl
  · exact ⟨p1, h1, hc.1⟩
  · exact ⟨p2, h2, hc.2.1⟩
  · exact ⟨p3, h3, hc.2.2.1⟩

lemma condVis_pushupCheck4 (kps : List Keypoint) (hc : pushupCheck4.cond kps) :
    allVisible pushupCheck4.required kps := by
  simp only [pushupCheck4] at hc
  rcases h1 : Lkp kps .left_shoulder with _ | p1 <;> simp [h1] at hc
  rcases h2 : Lkp kps .left_elbow with _ | p2 <;> simp [h2] at hc
  rcases h3 : Lkp kps .left_wrist with _ | p3 <;> simp [h3] at hc
  intro n hn
  simp only [pushupCheck4, List.mem_cons, List.not_mem_nil, or_false] at hn
  rcases hn with rfl | rfl | rfl
  · exact ⟨p1, h1, hc.1⟩
  · exact ⟨p2, h2, hc.2.1⟩
  · exact ⟨p3, h3, hc.2.2.1⟩

lemma condVis_pushupCheck5 (kps : List Keypoint) (hc : pushupCheck5.cond kps) :
    allVisible pushupCheck5.required kps := by
  simp only [pushupCheck5] at hc
  rcases h1 : Lkp kps .left_shoulder with _ | p1 <;> simp [h1] at hc
  rcases h2 : Lkp kps .left_elbow with _ | p2 <;> simp [h2] at hc
  rcases h3 : Lkp kps .left_wrist with _ | p3 <;> simp [h3] at hc
  intro n hn
  simp only [pushupCheck5, List.mem_cons, List.not_mem_nil, or_false] at hn
  rcases hn with rfl | rfl | rfl
  · exact ⟨p1, h1, hc.1⟩
  · exact ⟨p2, h2, hc.2.1⟩
  · exact ⟨p3, h3, hc.2.2.1⟩

lemma condVis_pullupCheck1 (kps : List Keypoint) (hc : pullupCheck1.cond kps) :
    allVisible pullupCheck1.required kps := by
  simp only [pullupCheck1] at hc
  rcases h1 : Lkp kps .left_shoulder with _ | p1 <;> simp [h1] at hc
  rcases h2 : Lkp kps .left_elbow with _ | p2 <;> simp [h2] at hc
  rcases h3 : Lkp kps .left_wrist with _ | p3 <;> simp [h3] at hc
  intro n hn
  simp only [pullupCheck1, List.mem_cons, List.not_mem_nil, or_false] at hn
  rcases hn with rfl | rfl | rfl
  · exact ⟨p1, h1, hc.1⟩
  · exact ⟨p2, h2, hc.2.1⟩
  · exact ⟨p3, h3, hc.2.2.1⟩

lemma condVis_pullupCheck2 (kps : List Keypoint) (hc : pullupCheck2.cond kps) :
    allVisible pullupCheck2.required kps := by
  simp only [pullupCheck2] at hc
  rcases h1 : Lkp kps .left_shoulder with _ | p1 <;> simp [h1] at hc
  rcases h2 : Lkp kps .left_elbow with _ | p2 <;> simp [h2] at hc
  rcases h3 : Lkp kps .left_wrist with _ | p3 <;> simp [h3] at hc
  intro n hn
  simp only [pullupCheck2, List.mem_cons, List.not_mem_nil, or_false] at hn
  rcases hn with rfl | rfl | rfl
  · exact ⟨p1, h1, hc.1⟩
  · exact ⟨p2, h2, hc.2.1⟩
  · exact ⟨p3, h3, hc.2.2.1⟩

lemma condVis_pullupCheck3 (kps : List Keypoint) (hc : pullupCheck3.cond kps) :
    allVisible pullupCheck3.required kps := by
  simp only [pullupCheck3] at hc
  rcases h1 : Lkp kps .left_shoulder with _ | p1 <;> simp [h1] at hc
  rcases h2 : Lkp kps .left_elbow with _ | p2 <;> simp [h2] at hc
  rcases h3 : Lkp kps .left_wrist with _ | p3 <;> simp [h3] at hc
  intro n hn
  simp only [pullupCheck3, List.mem_cons, List.not_mem_nil, or_false] at hn
  rcases hn with rfl | rfl | rfl
  · exact ⟨p1, h1, hc.1⟩
  · exact ⟨p2, h2, hc.2.1⟩
  · exact ⟨p3, h3, hc.2.2.1⟩

lemma condVis_pullupCheck4 (kps : List Keypoint) (hc : pullupCheck4.cond kps) :
    allVisible pullupCheck4.required kps := by
  simp only [pullupCheck4] at hc
  rcases h1 : Lkp kps .left_shoulder with _ | p1 <;> simp [h1] at hc
  rcases h2 : Lkp kps .left_elbow with _ | p2 <;> simp [h2] at hc
  intro n hn
  simp only [pullupCheck4, List.mem_cons, List.not_mem_nil, or_false] at hn
  rcases hn with rfl | rfl
  · exact ⟨p1, h1, hc.1⟩
  · exact ⟨p2, h2, hc.2.1⟩

lemma condVis_pullupCheck5 (kps : List Keypoint) (hc : pullupCheck5.cond kps) :
    allVisible pullupCheck5.required kps := by
  simp only [pullupCheck5] at hc
  rcases h1 : Lkp kps .left_hip with _ | p1 <;> simp [h1] at hc
  rcases h2 : Lkp kps .right_hip with _ | p2 <;> simp [h2] at hc
  intro n hn
  simp only [pullupCheck5, List.mem_cons, List.not_mem_nil, or_false] at hn
  rcases hn with rfl | rfl
  · exact ⟨p1, h1, hc.1⟩
  · exact ⟨p2, h2, hc.2.1⟩

lemma condVis_pullupCheck6 (kps : List Keypoint) (hc : pullupCheck6.cond kps) :
    allVisible pullupCheck6.required kps := by
  simp only [pullupCheck6] at hc
  rcases h1 : Lkp kps .left_shoulder with _ | p1 <;> simp [h1] at hc
  rcases h2 : Lkp kps .left_hip with _ | p2 <;> simp [h2] at hc
  rcases h3 : Lkp kps .left_knee with _ | p3 <;> simp [h3] at hc
  intro n hn
  simp only [pullupCheck6, List.mem_cons, List.not_mem_nil, or_false] at hn
  rcases hn with rfl | rfl | rfl
  · exact ⟨p1, h1, hc.1⟩
  · exact ⟨p2, h2, hc.2.1⟩
  · exact ⟨p3, h3, hc.2.2.1⟩

lemma condVis_lungeCheck1 (kps : List Keypoint) (hc : lungeCheck1.cond kps) :
    allVisible lungeCheck1.required kps := by
  simp only [lungeCheck1] at hc
  rcases h1 : Lkp kps .left_hip with _ | p1 <;> simp [h1] at hc
  rcases h2 : Lkp kps .left_knee with _ | p2 <;> simp [h2] at hc
  rcases h3 : Lkp kps .left_ankle with _ | p3 <;> simp [h3] at hc
  intro n hn
  simp only [lungeCheck1, List.mem_cons, List.not_mem_nil, or_false] at hn
  rcases hn with rfl | rfl | rfl
  · exact ⟨p1, h1, hc.1⟩
  · exact ⟨p2, h2, hc.2.1⟩
  · exact ⟨p3, h3, hc.2.2.1⟩

lemma condVis_lungeCheck2 (kps : List Keypoint) (hc : lungeCheck2.cond kps) :
    allVisible lungeCheck2.required kps := by
  simp only [lungeCheck2] at hc
  rcases h1 : Lkp kps .left_hip with _ | p1 <;> simp [h1] at hc
  rcases h2 : Lkp kps .left_knee with _ | p2 <;> simp [h2] at hc
  rcases h3 : Lkp kps .left_ankle with _ | p3 <;> simp [h3] at hc
  intro n hn
  simp only [lungeCheck2, List.mem_cons, List.not_mem_nil, or_false] at hn
  rcases hn with rfl | rfl | rfl
  · exact ⟨p1, h1, hc.1⟩
  · exact ⟨p2, h2, hc.2.1⟩
  · exact ⟨p3, h3, hc.2.2.1⟩

lemma condVis_lungeCheck3 (kps : List Keypoint) (hc : lungeCheck3.cond kps) :
    allVisible lungeCheck3.required kps := by
  simp only [lungeCheck3] at hc
  rcases h1 : Lkp kps .left_hip with _ | p1 <;> simp [h1] at hc
  rcases h2 : Lkp kps .left_knee with _ | p2 <;> simp [h2] at hc
  rcases h3 : Lkp kps .left_ankle with _ | p3 <;> simp [h3] at hc
  intro n hn
  simp only [lungeCheck3, List.mem_cons, List.not_mem_nil, or_false] at hn
  rcases hn with rfl | rfl | rfl
  · exact ⟨p1, h1, hc.1⟩
  · exact ⟨p2, h2, hc.2.1⟩
  · exact ⟨p3, h3, hc.2.2.1⟩

lemma condVis_lungeCheck4 (kps : List Keypoint) (hc : lungeCheck4.cond kps) :
    allVisible lungeCheck4.required kps := by
  simp only [lungeCheck4] at hc
  rcases h1 : Lkp kps .right_hip with _ | p1 <;> simp [h1] at hc
  rcases h2 : Lkp kps .right_knee with _ | p2 <;> simp [h2] at hc
  rcases h3 : Lkp kps .right_ankle with _ | p3 <;> simp [h3] at hc
  intro n hn
  simp only [lungeCheck4, List.mem_cons, List.not_mem_nil, or_false] at hn
  rcases hn with rfl | rfl | rfl
  · exact ⟨p1, h1, hc.1⟩
  · exact ⟨p2, h2, hc.2.1⟩
  · exact ⟨p3, h3, hc.2.2.1⟩

lemma condVis_lungeCheck5 (kps : List Keypoint) (hc : lungeCheck5.cond kps) :
    allVisible lungeCheck5.required kps := by
  simp only [lungeCheck5] at hc
  rcases h1 : Lkp kps .left_shoulder with _ | p1 <;> simp [h1] at hc
  rcases h2 : Lkp kps .left_hip with _ | p2 <;> simp [h2] at hc
  intro n hn
  simp only [lungeCheck5, List.mem_cons, List.not_mem_nil, or_false] at hn
  rcases hn with rfl | rfl
  · exact ⟨p1, h1, hc.1⟩
  · exact ⟨p2, h2, hc.2.1⟩

lemma condVis_lungeCheck6 (kps : List Keypoint) (hc : lungeCheck6.cond kps) :
    allVisible lungeCheck6.required kps := by
  simp only [lungeCheck6] at hc
  rcases h1 : Lkp kps .left_shoulder with _ | p1 <;> simp [h1] at hc
  rcases h2 : Lkp kps .left_hip with _ | p2 <;> simp [h2] at hc
  intro n hn
  simp only [lungeCheck6, List.mem_cons, List.not_mem_nil, or_false] at hn
  rcases hn with rfl | rfl
  · exact ⟨p1, h1, hc.1⟩
  · exact ⟨p2, h2, hc.2.1⟩

lemma condVis_lungeCheck7 (kps : List Keypoint) (hc : lungeCheck7.cond kps) :
    allVisible lungeCheck7.required kps := by
  simp only [lungeCheck7] at hc
  rcases h1 : Lkp kps .left_hip with _ | p1 <;> simp [h1] at hc
  rcases h2 : Lkp kps .right_hip with _ | p2 <;> simp [h2] at hc
  intro n hn
  simp only [lungeCheck7, List.mem_cons, List.not_mem_nil, or_false] at hn
  rcases hn with rfl | rfl
  · exact ⟨p1, h1, hc.1⟩
  · exact ⟨p2, h2, hc.2.1⟩

lemma condVis_plankCheck1 (kps : List Keypoint) (hc : plankCheck1.cond kps) :
    allVisible plankCheck1.required kps := by
  simp only [plankCheck1] at hc
  rcases h1 : Lkp kps .left_shoulder with _ | p1 <;> simp [h1] at hc
  rcases h2 : Lkp kps .left_hip with _ | p2 <;> simp [h2] at hc
  rcases h3 : Lkp kps .left_ankle with _ | p3 <;> simp [h3] at hc
  intro n hn
  simp only [plankCheck1, List.mem_cons, List.not_mem_nil, or_false] at hn
  rcases hn with rfl | rfl | rfl
  · exact ⟨p1, h1, hc.1⟩
  · exact ⟨p2, h2, hc.2.1⟩
  · exact ⟨p3, h3, hc.2.2.1⟩

lemma condVis_plankCheck2 (kps : List Keypoint) (hc : plankCheck2.cond kps) :
    allVisible plankCheck2.required kps := by
  simp only [plankCheck2] at hc
  rcases h1 : Lkp kps .left_shoulder with _ | p1 <;> simp [h1] at hc
  rcases h2 : Lkp kps .left_hip with _ | p2 <;> simp [h2] at hc
  rcases h3 : Lkp kps .left_ankle with _ | p3 <;> simp [h3] at hc
  intro n hn
  simp only [plankCheck2, List.mem_cons, List.not_mem_nil, or_false] at hn
  rcases hn with rfl | rfl | rfl
  · exact ⟨p1, h1, hc.1⟩
  · exact ⟨p2, h2, hc.2.1⟩
  · exact ⟨p3, h3, hc.2.2.1⟩

lemma condVis_plankCheck3 (kps : List Keypoint) (hc : plankCheck3.cond kps) :
    allVisible plankCheck3.required kps := by
  simp only [plankCheck3] at hc
  rcases h1 : Lkp kps .left_shoulder with _ | p1 <;> simp [h1] at hc
  rcases h2 : Lkp kps .left_elbow with _ | p2 <;> simp [h2] at hc
  rcases h3 : Lkp kps .left_wrist with _ | p3 <;> simp [h3] at hc
  intro n hn
  simp only [plankCheck3, List.mem_cons, List.not_mem_nil, or_false] at hn
  rcases hn with rfl | rfl | rfl
  · exact ⟨p1, h1, hc.1⟩
  · exact ⟨p2, h2, hc.2.1⟩
  · exact ⟨p3, h3, hc.2.2.1⟩

lemma condVis_plankCheck4 (kps : List Keypoint) (hc : plankCheck4.cond kps) :
    allVisible plankCheck4.required kps := by
  simp only [plankCheck4] at hc
  rcases h1 : Lkp kps .left_shoulder with _ | p1 <;> simp [h1] at hc
  rcases h2 : Lkp kps .left_elbow with _ | p2 <;> simp [h2] at hc
  intro n hn
  simp only [plankCheck4, List.mem_cons, List.not_mem_nil, or_false] at hn
  rcases hn with rfl | rfl
  · exact ⟨p1, h1, hc.1⟩
  · exact ⟨p2, h2, hc.2.1⟩

lemma condVis_plankCheck5 (kps : List Keypoint) (hc : plankCheck5.cond kps) :
    allVisible plankCheck5.required kps := by
  simp only [plankCheck5] at hc
  rcases h1 : Lkp kps .left_shoulder with _ | p1 <;> simp [h1] at hc
  rcases h2 : Lkp kps .nose with _ | p2 <;> simp [h2] at hc
  intro n hn
  simp only [plankCheck5, List.mem_cons, List.not_mem_nil, or_false] at hn
  rcases hn with rfl | rfl
  · exact ⟨p1, h1, hc.1⟩
  · exact ⟨p2, h2, hc.2.1⟩

lemma condVis_jackCheck1 (kps : List Keypoint) (hc : jackCheck1.cond kps) :
    allVisible jackCheck1.required kps := by
  simp only [jackCheck1] at hc
  rcases h1 : Lkp kps .left_shoulder with _ | p1 <;> simp [h1] at hc
  rcases h2 : Lkp kps .left_elbow with _ | p2 <;> simp [h2] at hc
  rcases h3 : Lkp kps .left_wrist with _ | p3 <;> simp [h3] at hc
  intro n hn
  simp only [jackCheck1, List.mem_cons, List.not_mem_nil, or_false] at hn
  rcases hn with rfl | rfl | rfl
  · exact ⟨p1, h1, hc.1⟩
  · exact ⟨p2, h2, hc.2.1⟩
  · exact ⟨p3, h3, hc.2.2.1⟩

lemma condVis_jackCheck2 (kps : List Keypoint) (hc : jackCheck2.cond kps) :
    allVisible jackCheck2.required kps := by
  simp only [jackCheck2] at hc
  rcases h1 : Lkp kps .left_hip with _ | p1 <;> simp [h1] at hc
  rcases h2 : Lkp kps .left_knee with _ | p2 <;> simp [h2] at hc
  rcases h3 : Lkp kps .left_ankle with _ | p3 <;> simp [h3] at hc
  intro n hn
  simp only [jackCheck2, List.mem_cons, List.not_mem_nil, or_false] at hn
  rcases hn with rfl | rfl | rfl
  · exact ⟨p1, h1, hc.1⟩
  · exact ⟨p2, h2, hc.2.1⟩
  · exact ⟨p3, h3, hc.2.2.1⟩

lemma condVis_jackCheck3 (kps : List Keypoint) (hc : jackCheck3.cond kps) :
    allVisible jackCheck3.required kps := by
  simp only [jackCheck3] at hc
  rcases h1 : Lkp kps .left_ankle with _ | p1 <;> simp [h1] at hc
  rcases h2 : Lkp kps .right_ankle with _ | p2 <;> simp [h2] at hc
  intro n hn
  simp only [jackCheck3, List.mem_cons, List.not_mem_nil, or_false] at hn
  rcases hn with rfl | rfl
  · exact ⟨p1, h1, hc.1⟩
  · exact ⟨p2, h2, hc.2.1⟩


lemma mem_ite_list {c : FormCheck} {p : Prop} [Decidable p] {l : List FormCheck}
    (h : c ∈ if p then l else []) : c ∈ l := by
  split at h
  · exact h
  · exact absurd h (List.not_mem_nil c)

/-- Every check of `formChecks` can only fire when all of its required
landmarks are present with visibility above the threshold. -/
lemma formChecks_condVis {name : String} {c : FormCheck} (hmem : c ∈ formChecks name)
    (kps : List Keypoint) (hc : c.cond kps) : allVisible c.required kps := by
  simp only [formChecks, List.append_assoc, List.mem_append] at hmem
  rcases hmem with h | h | h | h | h | h
  · have h2 := mem_ite_list h
    simp only [squatChecks] at h2
    fin_cases h2
    · exact condVis_squatCheck1 kps hc
    · exact condVis_squatCheck2 kps hc
    · exact condVis_squatCheck3 kps hc
    · exact condVis_squatCheck4 kps hc
    · exact condVis_squatCheck5 kps hc
    · exact condVis_squatCheck6 kps hc
  · have h2 := mem_ite_list h
    simp only [pushupChecks] at h2
    fin_cases h2
    · exact condVis_pushupCheck1 kps hc
    · exact condVis_pushupCheck2 kps hc
    · exact condVis_pushupCheck3 kps hc
    · exact condVis_pushupCheck4 kps hc
    · exact condVis_pushupCheck5 kps hc
  · have h2 := mem_ite_list h
    simp only [pullupChecks] at h2
    fin_cases h2
    · exact condVis_pullupCheck1 kps hc
    · exact condVis_pullupCheck2 kps hc
    · exact condVis_pullupCheck3 kps hc
    · exact condVis_pullupCheck4 kps hc
    · exact condVis_pullupCheck5 kps hc
    · exact condVis_pullupCheck6 kps hc
  · have h2 := mem_ite_list h
    simp only [lungeChecks] at h2
    fin_cases h2
    · exact condVis_lungeCheck1 kps hc
    · exact condVis_lungeCheck2 kps hc
    · exact condVis_lungeCheck3 kps hc
    · exact condVis_lungeCheck4 kps hc
    · exact condVis_lungeCheck5 kps hc
    · exact condVis_lungeCheck6 kps hc
    · exact condVis_lungeCheck7 kps hc
  · have h2 := mem_ite_list h
    simp only [plankChecks] at h2
    fin_cases h2
    · exact condVis_plankCheck1 kps hc
    · exact condVis_plankCheck2 kps hc
    · exact condVis_plankCheck3 kps hc
    · exact condVis_plankCheck4 kps hc
    · exact condVis_plankCheck5 kps hc
  · have h2 := mem_ite_list h
    simp only [jackChecks] at h2
    fin_cases h2
    · exact condVis_jackCheck1 kps hc
    · exact condVis_jackCheck2 kps hc
    · exact condVis_jackCheck3 kps hc

/-! ## `countReps` lemmas -/

/-- When the gating landmarks of the active exercise's rep signal are not all
present and visible, `countStep` leaves the whole state unchanged. -/
lemma countStep_not_visible (ex : Exercise) (now : String) (k : ExKind)
    (kps : List Keypoint) (st : SessionState)
    (h : ¬ allVisible (repRequired k) kps) :
    countStep ex now k kps st = st := by
  cases k
  case squat =>
    rcases h1 : Lkp kps .left_hip with _ | p1 <;>
    rcases h2 : Lkp kps .left_knee with _ | p2 <;>
      simp only [countStep, h1, h2]
    by_cases hv : p1.visibility > 0.4 ∧ p2.visibility > 0.4
    · refine absurd (fun n hn => ?_) h
      simp only [repRequired, List.mem_cons, List.not_mem_nil, or_false] at hn
      rcases hn with rfl | rfl
      · exact ⟨p1, h1, hv.1⟩
      · exact ⟨p2, h2, hv.2⟩
    · exact if_neg hv
  case pushup =>
    rcases h1 : Lkp kps .left_shoulder with _ | p1 <;>
    rcases h2 : Lkp kps .left_elbow with _ | p2 <;>
    rcases h3 : Lkp kps .left_wrist with _ | p3 <;>
      simp only [countStep, h1, h2, h3]
    by_cases hv : p1.visibility > 0.4 ∧ p2.visibility > 0.4 ∧ p3.visibility > 0.4
    · refine absurd (fun n hn => ?_) h
      simp only [repRequired, List.mem_cons, List.not_mem_nil, or_false] at hn
      rcases hn with rfl | rfl | rfl
      · exact ⟨p1, h1, hv.1⟩
      · exact ⟨p2, h2, hv.2.1⟩
      · exact ⟨p3, h3, hv.2.2⟩
    · exact if_neg hv
  case pullup =>
    rcases h1 : Lkp kps .left_shoulder with _ | p1 <;>
    rcases h2 : Lkp kps .left_elbow with _ | p2 <;>
    rcases h3 : Lkp kps .left_wrist with _ | p3 <;>
      simp only [countStep, h1, h2, h3]
    by_cases hv : p1.visibility > 0.4 ∧ p2.visibility > 0.4 ∧ p3.visibility > 0.4
    · refine absurd (fun n hn => ?_) h
      simp only [repRequired, List.mem_cons, List.not_mem_nil, or_false] at hn
      rcases hn with rfl | rfl | rfl
      · exact ⟨p1, h1, hv.1⟩
      · exact ⟨p2, h2, hv.2.1⟩
      · exact ⟨p3, h3, hv.2.2⟩
    · exact if_neg hv
  case lunge =>
    rcases h1 : Lkp kps .left_hip with _ | p1 <;>
    rcases h2 : Lkp kps .left_knee with _ | p2 <;>
    rcases h3 : Lkp kps .left_ankle with _ | p3 <;>
      simp only [countStep, h1, h2, h3]
    by_cases hv : p1.visibility > 0.4 ∧ p2.visibility > 0.4 ∧ p3.visibility > 0.4
    · refine absurd (fun n hn => ?_) h
      simp only [repRequired, List.mem_cons, List.not_mem_nil, or_false] at hn
      rcases hn with rfl | rfl | rfl
      · exact ⟨p1, h1, hv.1⟩
      · exact ⟨p2, h2, hv.2.1⟩
      · exact ⟨p3, h3, hv.2.2⟩
    · exact if_neg hv
  case jack =>
    rcases h1 : Lkp kps .left_wrist with _ | p1 <;>
    rcases h2 : Lkp kps .left_shoulder with _ | p2 <;>
    rcases h3 : Lkp kps .left_ankle with _ | p3 <;>
    rcases h4 : Lkp kps .right_ankle with _ | p4 <;>
      simp only [countStep, h1, h2, h3, h4]
    by_cases hv : p1.visibility > 0.4 ∧ p2.visibility > 0.4 ∧ p3.visibility > 0.4 ∧
        p4.visibility > 0.4
    · refine absurd (fun n hn => ?_) h
      simp only [repRequired, List.mem_cons, List.not_mem_nil, or_false] at hn
      rcases hn with rfl | rfl | rfl | rfl
      · exact ⟨p1, h1, hv.1⟩
      · exact ⟨p2, h2, hv.2.1⟩
      · exact ⟨p3, h3, hv.2.2.1⟩
      · exact ⟨p4, h4, hv.2.2.2⟩
    · exact if_neg hv
  case other => rfl

/-- `countStep` either leaves `currentReps` unchanged, or increments it by
exactly one on a `down → up` phase edge. -/
lemma countStep_edge (ex : Exercise) (now : String) (k : ExKind)
    (kps : List Keypoint) (st : SessionState) :
    (countStep ex now k kps st).currentReps = st.currentReps ∨
    ((countStep ex now k kps st).currentReps = st.currentReps + 1 ∧
      st.phase = .down ∧ (countStep ex now k kps st).phase = .up) := by
  cases k
  case squat =>
    rcases h1 : Lkp kps .left_hip with _ | p1 <;>
    rcases h2 : Lkp kps .left_knee with _ | p2 <;>
      simp only [countStep, h1, h2]
    iterate 3 (left; trivial)
    split_ifs with hv hd hu
    · exact Or.inl rfl
    · refine Or.inr ⟨?_, hu.2, ?_⟩
      · rw [incrementReps_currentReps]
      · rw [incrementReps_phase]
    · exact Or.inl rfl
    · exact Or.inl rfl
  case pushup =>
    rcases h1 : Lkp kps .left_shoulder with _ | p1 <;>
    rcases h2 : Lkp kps .left_elbow with _ | p2 <;>
    rcases h3 : Lkp kps .left_wrist with _ | p3 <;>
      simp only [countStep, h1, h2, h3]
    iterate 7 (left; trivial)
    split_ifs with hv hd hu
    · exact Or.inl rfl
    · refine Or.inr ⟨?_, hu.2, ?_⟩
      · rw [incrementReps_currentReps]
      · rw [incrementReps_phase]
    · exact Or.inl rfl
    · exact Or.inl rfl
  case pullup =>
    rcases h1 : Lkp kps .left_shoulder with _ | p1 <;>
    rcases h2 : Lkp kps .left_elbow with _ | p2 <;>
    rcases h3 : Lkp kps .left_wrist with _ | p3 <;>
      simp only [countStep, h1, h2, h3]
    iterate 7 (left; trivial)
    split_ifs with hv hd hu
    · exact Or.inl rfl
    · refine Or.inr ⟨?_, hu.2, ?_⟩
      · rw [incrementReps_currentReps]
      · rw [incrementReps_phase]
    · exact Or.inl rfl
    · exact Or.inl rfl
  case lunge =>
    rcases h1 : Lkp kps .left_hip with _ | p1 <;>
    rcases h2 : Lkp kps .left_knee with _ | p2 <;>
    rcases h3 : Lkp kps .left_ankle with _ | p3 <;>
      simp only [countStep, h1, h2, h3]
    iterate 7 (left; trivial)
    split_ifs with hv hd hu
    · exact Or.inl rfl
    · refine Or.inr ⟨?_, hu.2, ?_⟩
      · rw [incrementReps_currentReps]
      · rw [incrementReps_phase]
    · exact Or.inl rfl
    · exact Or.inl rfl
  case jack =>
    rcases h1 : Lkp kps .left_wrist with _ | p1 <;>
    rcases h2 : Lkp kps .left_shoulder with _ | p2 <;>
    rcases h3 : Lkp kps .left_ankle with _ | p3 <;>
    rcases h4 : Lkp kps .right_ankle with _ | p4 <;>
      simp only [countStep, h1, h2, h3, h4]
    iterate 15 (left; trivial)
    split_ifs with hv hfire hclose
    · refine Or.inr ⟨?_, hfire.2.2, ?_⟩
      · rw [incrementReps_currentReps]
      · rw [incrementReps_phase]
    · exact Or.inl rfl
    · exact Or.inl rfl
    · exact Or.inl rfl
  case other => exact Or.inl rfl


/-- Squat: a frame whose hip-knee signal lies strictly inside the hysteresis
band changes nothing. -/
lemma countStep_squat_between (ex : Exercise) (now : String)
    (kps : List Keypoint) (st : SessionState)
    (hlo : thresholds.squat.hipKneeDown < squatSignal kps)
    (hhi : squatSignal kps < thresholds.squat.hipKneeUp) :
    countStep ex now .squat kps st = st := by
  rcases h1 : Lkp kps .left_hip with _ | p1 <;>
  rcases h2 : Lkp kps .left_knee with _ | p2 <;>
    simp only [countStep, h1, h2]
  have hs : squatSignal kps = jsAbs (p1.y - p2.y) := by
    simp [squatSignal, h1, h2]
  rw [hs] at hlo hhi
  split_ifs with hv hd hu
  · exact absurd hd.1 (not_lt.mpr hlo.le)
  · exact absurd hu.1 (not_lt.mpr hhi.le)
  · rfl
  · rfl

/-- Push-up: a frame with elbow angle strictly inside the hysteresis band
changes nothing. -/
lemma countStep_pushup_between (ex : Exercise) (now : String)
    (kps : List Keypoint) (st : SessionState)
    (hlo : (thresholds.pushup.elbowDown : ℝ) < elbowSignal kps)
    (hhi : elbowSignal kps < (thresholds.pushup.elbowUp : ℝ)) :
    countStep ex now .pushup kps st = st := by
  rcases h1 : Lkp kps .left_shoulder with _ | p1 <;>
  rcases h2 : Lkp kps .left_elbow with _ | p2 <;>
  rcases h3 : Lkp kps .left_wrist with _ | p3 <;>
    simp only [countStep, h1, h2, h3]
  have hs : elbowSignal kps = getAngle (some p1) (some p2) (some p3) := by
    simp [elbowSignal, h1, h2, h3]
  rw [hs] at hlo hhi
  split_ifs with hv hd hu
  · exact absurd hd.1 (not_lt.mpr hlo.le)
  · exact absurd hu.1 (not_lt.mpr hhi.le)
  · rfl
  · rfl

/-- Pull-up variant of the previous lemma. -/
lemma countStep_pullup_between (ex : Exercise) (now : String)
    (kps : List Keypoint) (st : SessionState)
    (hlo : (thresholds.pullup.elbowDown : ℝ) < elbowSignal kps)
    (hhi : elbowSignal kps < (thresholds.pullup.elbowUp : ℝ)) :
    countStep ex now .pullup kps st = st := by
  rcases h1 : Lkp kps .left_shoulder with _ | p1 <;>
  rcases h2 : Lkp kps .left_elbow with _ | p2 <;>
  rcases h3 : Lkp kps .left_wrist with _ | p3 <;>
    simp only [countStep, h1, h2, h3]
  have hs : elbowSignal kps = getAngle (some p1) (some p2) (some p3) := by
    simp [elbowSignal, h1, h2, h3]
  rw [hs] at hlo hhi
  split_ifs with hv hd hu
  · exact absurd hd.1 (not_lt.mpr hlo.le)
  · exact absurd hu.1 (not_lt.mpr hhi.le)
  · rfl
  · rfl

/-- Lunge variant of the previous lemma, on the knee angle. -/
lemma countStep_lunge_between (ex : Exercise) (now : String)
    (kps : List Keypoint) (st : SessionState)
    (hlo : (thresholds.lunge.kneeDown : ℝ) < lungeSignal kps)
    (hhi : lungeSignal kps < (thresholds.lunge.kneeUp : ℝ)) :
    countStep ex now .lunge kps st = st := by
  rcases h1 : Lkp kps .left_hip with _ | p1 <;>
  rcases h2 : Lkp kps .left_knee with _ | p2 <;>
  rcases h3 : Lkp kps .left_ankle with _ | p3 <;>
    simp only [countStep, h1, h2, h3]
  have hs : lungeSignal kps = getAngle (some p1) (some p2) (some p3) := by
    simp [lungeSignal, h1, h2, h3]
  rw [hs] at hlo hhi
  split_ifs with hv hd hu
  · exact absurd hd.1 (not_lt.mpr hlo.le)
  · exact absurd hu.1 (not_lt.mpr hhi.le)
  · rfl
  · rfl

/-- The only jack transition into phase `down` is a fully closed, fully
visible frame. -/
lemma countStep_jack_to_down (ex : Exercise) (now : String)
    (kps : List Keypoint) (st : SessionState)
    (h : (countStep ex now .jack kps st).phase = .down) :
    st.phase = .down ∨ jackClosed kps := by
  rcases h1 : Lkp kps .left_wrist with _ | p1 <;>
  rcases h2 : Lkp kps .left_shoulder with _ | p2 <;>
  rcases h3 : Lkp kps .left_ankle with _ | p3 <;>
  rcases h4 : Lkp kps .right_ankle with _ | p4 <;>
    simp only [countStep, h1, h2, h3, h4] at h
  iterate 15 exact Or.inl h
  split_ifs at h with hv hfire hclose
  · rw [incrementReps_phase] at h
    simp at h
  · refine Or.inr ?_
    simp only [jackClosed, h1, h2, h3, h4]
    exact ⟨hv.1, hv.2.1, hv.2.2.1, hv.2.2.2, hclose.1, hclose.2.1⟩
  · exact Or.inl h
  · exact Or.inl h

/-- A jack frame in which exactly one of `armsUp`, `legsSpread` holds moves
neither the phase nor anything else. -/
lemma countStep_jack_half (ex : Exercise) (now : String)
    (kps : List Keypoint) (st : SessionState) (h : jackHalfOpen kps) :
    countStep ex now .jack kps st = st := by
  rcases h1 : Lkp kps .left_wrist with _ | p1 <;>
  rcases h2 : Lkp kps .left_shoulder with _ | p2 <;>
  rcases h3 : Lkp kps .left_ankle with _ | p3 <;>
  rcases h4 : Lkp kps .right_ankle with _ | p4 <;>
    simp only [countStep, h1, h2, h3, h4]
  have h' := h
  simp only [jackHalfOpen, h1, h2, h3, h4] at h'
  split_ifs with hv hfire hclose
  · rcases h' with ⟨ha, hl⟩ | ⟨ha, hl⟩
    · exact absurd hfire.2.1 hl
    · exact absurd hfire.1 ha
  · rcases h' with ⟨ha, hl⟩ | ⟨ha, hl⟩
    · exact absurd ha hclose.1
    · exact absurd hl hclose.2.1
  · rfl
  · rfl

/-- From phase `up`, a jack frame that is not fully closed (and fully
visible) changes nothing. -/
lemma countStep_jack_not_closed (ex : Exercise) (now : String)
    (kps : List Keypoint) (st : SessionState) (hup : st.phase = .up)
    (h : ¬ jackClosed kps) : countStep ex now .jack kps st = st := by
  rcases h1 : Lkp kps .left_wrist with _ | p1 <;>
  rcases h2 : Lkp kps .left_shoulder with _ | p2 <;>
  rcases h3 : Lkp kps .left_ankle with _ | p3 <;>
  rcases h4 : Lkp kps .right_ankle with _ | p4 <;>
    simp only [countStep, h1, h2, h3, h4]
  split_ifs with hv hfire hclose
  · rw [hup] at hfire
    exact absurd hfire.2.2 (by decide)
  · refine absurd ?_ h
    simp only [jackClosed, h1, h2, h3, h4]
    exact ⟨hv.1, hv.2.1, hv.2.2.1, hv.2.2.2, hclose.1, hclose.2.1⟩
  · rfl
  · rfl

/-! ## Pipeline lemmas -/

lemma runFrames_nil (ex : Exercise) (now : String) (st : SessionState) :
    runFrames ex now st [] = st := rfl

lemma runFrames_cons (ex : Exercise) (now : String) (st : SessionState)
    (f : List Keypoint) (t : List (List Keypoint)) :
    runFrames ex now st (f :: t) =
      runFrames ex now (onPoseResults ex now (some f) st) t := rfl

/-- One pipeline step preserves phase and rep count whenever the rep counter
ignores the frame. -/
lemma onPoseResults_phase_reps (ex : Exercise) (now : String)
    (f : List Keypoint) (st : SessionState)
    (hstep : ∀ s : SessionState, countStep ex now (exKindOfName ex.name) f s = s) :
    (onPoseResults ex now (some f) st).phase = st.phase ∧
    (onPoseResults ex now (some f) st).currentReps = st.currentReps := by
  by_cases hd : st.isDetecting = true
  · simp only [onPoseResults, hd, Bool.not_true, Bool.false_eq_true, if_false, countReps]
    rw [hstep]
    exact ⟨checkForm_phase ex f st, checkForm_currentReps ex f st⟩
  · have hd' : st.isDetecting = false := by simpa using hd
    simp [onPoseResults, hd']

/-- Folding frames that the rep counter ignores preserves phase and rep
count. -/
lemma runFrames_phase_reps (ex : Exercise) (now : String)
    (P : List Keypoint → Prop)
    (hstep : ∀ kps, P kps → ∀ s : SessionState,
      countStep ex now (exKindOfName ex.name) kps s = s)
    (frames : List (List Keypoint)) (st : SessionState)
    (hP : ∀ kps ∈ frames, P kps) :
    (runFrames ex now st frames).phase = st.phase ∧
    (runFrames ex now st frames).currentReps = st.currentReps := by
  induction frames generalizing st with
  | nil => exact ⟨rfl, rfl⟩
  | cons f t ih =>
      have hone := onPoseResults_phase_reps ex now f st
        (hstep f (hP f (List.mem_cons_self f t)))
      have hrest := ih (onPoseResults ex now (some f) st)
        (fun kps hk => hP kps (List.mem_cons_of_mem f hk))
      rw [runFrames_cons]
      exact ⟨hrest.1.trans hone.1, hrest.2.trans hone.2⟩

/-- For a jumping jack starting in phase `up`, frames that never show the
fully closed position leave the phase at `up` and never count a rep. -/
lemma runFrames_jack_up (ex : Exercise) (now : String)
    (hk : exKindOfName ex.name = .jack)
    (frames : List (List Keypoint)) (st : SessionState) (hup : st.phase = .up)
    (hcl : ∀ kps ∈ frames, ¬ jackClosed kps) :
    (runFrames ex now st frames).phase = .up ∧
    (runFrames ex now st frames).currentReps = st.currentReps := by
  induction frames generalizing st with
  | nil => exact ⟨hup, rfl⟩
  | cons f t ih =>
      have hstep : ∀ s : SessionState, s.phase = .up →
          countStep ex now (exKindOfName ex.name) f s = s := by
        rw [hk]
        intro s hs
        exact countStep_jack_not_closed ex now f s hs (hcl f (List.mem_cons_self f t))
      have hone : (onPoseResults ex now (some f) st).phase = .up ∧
          (onPoseResults ex now (some f) st).currentReps = st.currentReps := by
        by_cases hd : st.isDetecting = true
        · simp only [onPoseResults, hd, Bool.not_true, Bool.false_eq_true, if_false,
            countReps]
          rw [hstep _ (by rw [checkForm_phase]; exact hup)]
          exact ⟨(checkForm_phase ex f st).trans hup, checkForm_currentReps ex f st⟩
        · have hd' : st.isDetecting = false := by simpa using hd
          simp [onPoseResults, hd', hup]
      have hrest := ih (onPoseResults ex now (some f) st)
        hone.1 (fun kps hkk => hcl kps (List.mem_cons_of_mem f hkk))
      rw [runFrames_cons]
      exact ⟨hrest.1, hrest.2.trans hone.2⟩


/-! ## Geometry lemmas -/

lemma atan2_le_pi (y x : ℝ) : atan2 y x ≤ Real.pi := Complex.arg_le_pi _

lemma neg_pi_lt_atan2 (y x : ℝ) : -Real.pi < atan2 y x := Complex.neg_pi_lt_arg _

lemma getAngle_nonneg_le (a b c : Option Keypoint) :
    0 ≤ getAngle a b c ∧ getAngle a b c ≤ 180 := by
  have hpi := Real.pi_pos
  rcases a with _ | pa
  · constructor <;> simp [getAngle]
  rcases b with _ | pb
  · constructor <;> simp [getAngle]
  rcases c with _ | pc
  · constructor <;> simp [getAngle]
  simp only [getAngle]
  have h1a := atan2_le_pi ((pc.y:ℝ) - (pb.y:ℝ)) ((pc.x:ℝ) - (pb.x:ℝ))
  have h1b := neg_pi_lt_atan2 ((pc.y:ℝ) - (pb.y:ℝ)) ((pc.x:ℝ) - (pb.x:ℝ))
  have h2a := atan2_le_pi ((pa.y:ℝ) - (pb.y:ℝ)) ((pa.x:ℝ) - (pb.x:ℝ))
  have h2b := neg_pi_lt_atan2 ((pa.y:ℝ) - (pb.y:ℝ)) ((pa.x:ℝ) - (pb.x:ℝ))
  set t1 := atan2 ((pc.y:ℝ) - (pb.y:ℝ)) ((pc.x:ℝ) - (pb.x:ℝ))
  set t2 := atan2 ((pa.y:ℝ) - (pb.y:ℝ)) ((pa.x:ℝ) - (pb.x:ℝ))
  have habs : |(t1 - t2) * 180 / Real.pi| < 360 := by
    rw [abs_div, abs_mul, abs_of_pos hpi, div_lt_iff₀ hpi]
    have hd : |t1 - t2| < 2 * Real.pi := by
      rw [abs_lt]
      constructor <;> linarith
    calc |t1 - t2| * |(180:ℝ)|
        = |t1 - t2| * 180 := by norm_num
      _ < 2 * Real.pi * 180 := by nlinarith
      _ = 360 * Real.pi := by ring
  have hnn : (0:ℝ) ≤ |(t1 - t2) * 180 / Real.pi| := abs_nonneg _
  split_ifs with hgt
  · constructor <;> linarith
  · exact ⟨hnn, le_of_not_lt hgt⟩

lemma getAngle_symm (a b c : Option Keypoint) :
    getAngle a b c = getAngle c b a := by
  rcases a with _ | pa <;> rcases b with _ | pb <;> rcases c with _ | pc <;>
    simp only [getAngle]
  have heq : |(atan2 ((pa.y:ℝ) - (pb.y:ℝ)) ((pa.x:ℝ) - (pb.x:ℝ)) -
               atan2 ((pc.y:ℝ) - (pb.y:ℝ)) ((pc.x:ℝ) - (pb.x:ℝ))) * 180 / Real.pi| =
             |(atan2 ((pc.y:ℝ) - (pb.y:ℝ)) ((pc.x:ℝ) - (pb.x:ℝ)) -
               atan2 ((pa.y:ℝ) - (pb.y:ℝ)) ((pa.x:ℝ) - (pb.x:ℝ))) * 180 / Real.pi| := by
    rw [show atan2 ((pa.y:ℝ) - (pb.y:ℝ)) ((pa.x:ℝ) - (pb.x:ℝ)) -
            atan2 ((pc.y:ℝ) - (pb.y:ℝ)) ((pc.x:ℝ) - (pb.x:ℝ)) =
          -(atan2 ((pc.y:ℝ) - (pb.y:ℝ)) ((pc.x:ℝ) - (pb.x:ℝ)) -
            atan2 ((pa.y:ℝ) - (pb.y:ℝ)) ((pa.x:ℝ) - (pb.x:ℝ))) from by ring,
        neg_mul, neg_div, abs_neg]
  rw [heq]

lemma atan2_zero_one : atan2 0 1 = 0 := by
  rw [atan2, show (⟨1, 0⟩ : ℂ) = 1 from by apply Complex.ext <;> simp, Complex.arg_one]

lemma atan2_one_zero : atan2 1 0 = Real.pi / 2 := by
  rw [atan2, show (⟨0, 1⟩ : ℂ) = Complex.I from by apply Complex.ext <;> simp,
    Complex.arg_I]

lemma atan2_zero_neg_one : atan2 0 (-1) = Real.pi := by
  rw [atan2, show (⟨-1, 0⟩ : ℂ) = -1 from by apply Complex.ext <;> simp,
    Complex.arg_neg_one]

lemma atan2_one_one : atan2 1 1 = Real.pi / 4 := by
  have hpi := Real.pi_pos
  have habs : Complex.abs ⟨1, 1⟩ = Real.sqrt 2 := by
    rw [Complex.abs_apply, Complex.normSq_mk]
    norm_num
  rw [atan2]
  simp only [Complex.arg]
  rw [if_pos (by norm_num : (0:ℝ) ≤ (⟨1, 1⟩ : ℂ).re)]
  rw [habs]
  have h2 : (1:ℝ) / Real.sqrt 2 = Real.sqrt 2 / 2 := by
    have hs : Real.sqrt 2 ≠ 0 := ne_of_gt (Real.sqrt_pos.mpr (by norm_num))
    field_simp
  rw [h2, ← Real.sin_pi_div_four]
  exact Real.arcsin_sin (by linarith) (by linarith)

/-- The angle at a right-angle corner: vertical ray up to `a`, horizontal ray
to `c`. -/
lemma getAngle_right_angle (n1 n2 n3 : LandmarkKey) (v1 v2 v3 : ℚ) :
    getAngle (some ⟨n1, 0, 1, v1⟩) (some ⟨n2, 0, 0, v2⟩) (some ⟨n3, 1, 0, v3⟩) = 90 := by
  have hpi := Real.pi_pos
  have hpi' := Real.pi_ne_zero
  simp only [getAngle]
  norm_num
  rw [atan2_zero_one, atan2_one_zero]
  have hval : (0 - Real.pi / 2) * 180 / Real.pi = -90 := by
    field_simp
    ring
  rw [hval, show |(-90:ℝ)| = 90 from by norm_num, if_neg (by norm_num)]

/-- A 135° corner: ray to `a` along `(-1, 0)`, ray to `c` along `(1, 1)`. -/
lemma getAngle_135 (n1 n2 n3 : LandmarkKey) (v1 v2 v3 : ℚ) :
    getAngle (some ⟨n1, -1, 0, v1⟩) (some ⟨n2, 0, 0, v2⟩) (some ⟨n3, 1, 1, v3⟩) = 135 := by
  have hpi := Real.pi_pos
  have hpi' := Real.pi_ne_zero
  simp only [getAngle]
  norm_num
  rw [atan2_one_one, atan2_zero_neg_one]
  have hval : (Real.pi / 4 - Real.pi) * 180 / Real.pi = -135 := by
    field_simp
    ring
  rw [hval, show |(-135:ℝ)| = 135 from by norm_num, if_neg (by norm_num)]


/-! ## Concrete evaluation lemmas -/

/-- On a frame that carries only the two squat rep landmarks, the squat form
section finds nothing and `checkForm` resets both outputs. -/
lemma checkForm_squats_eval (st : SessionState) (kps : List Keypoint)
    (p1 p2 : Keypoint)
    (hLh : Lkp kps .left_hip = some p1) (hLk : Lkp kps .left_knee = some p2)
    (hLa : Lkp kps .left_ankle = none) (hLs : Lkp kps .left_shoulder = none)
    (hRk : Lkp kps .right_knee = none) :
    checkForm squatsEx kps st = { st with incorrectJoints := [], formFeedback := "" } := by
  have hname : jsToLower squatsEx.name = "squats" := by decide
  simp only [checkForm, hname, checkFormCore]
  rw [if_pos (by decide : strIncludes "squats" "squat" = true)]
  rw [if_neg (by decide : ¬ ((strIncludes "squats" "push" ||
        (strIncludes "squats" "up" && strIncludes "squats" "push")) = true))]
  rw [if_neg (by decide : ¬ (strIncludes "squats" "pull" = true))]
  rw [if_neg (by decide : ¬ (strIncludes "squats" "lunge" = true))]
  rw [if_neg (by decide : ¬ (strIncludes "squats" "plank" = true))]
  rw [if_neg (by decide : ¬ ((strIncludes "squats" "jack" ||
        strIncludes "squats" "jump") = true))]
  simp only [squatFormSection, squatKneeBlock, squatHipBlock, squatBackBlock,
    squatKneeWidthBlock, hLh, hLk, hLa, hLs, hRk]

/-- Evaluating the squat branch of `countStep` once both gating landmarks are
visible. -/
lemma countStep_squat_eval (ex : Exercise) (now : String) (st : SessionState)
    (kps : List Keypoint) (p1 p2 : Keypoint)
    (hLh : Lkp kps .left_hip = some p1) (hLk : Lkp kps .left_knee = some p2)
    (hv : p1.visibility > 0.4 ∧ p2.visibility > 0.4) :
    countStep ex now .squat kps st =
      (if jsAbs (p1.y - p2.y) < 80 ∧ st.phase = .up then { st with phase := .down }
       else if jsAbs (p1.y - p2.y) > 120 ∧ st.phase = .down then
         incrementReps ex now { st with phase := .up }
       else st) := by
  simp only [countStep, hLh, hLk, if_pos hv]
  rfl

lemma exKind_squats : exKindOfName squatsEx.name = .squat := by decide

lemma exKind_jacks : exKindOfName jacksEx.name = .jack := by decide

lemma sqFrameHigh_eval : Lkp sqFrameHigh .left_hip = some ⟨.left_hip, 100, 300, 1⟩ ∧
    Lkp sqFrameHigh .left_knee = some ⟨.left_knee, 100, 450, 1⟩ ∧
    Lkp sqFrameHigh .left_ankle = none ∧ Lkp sqFrameHigh .left_shoulder = none ∧
    Lkp sqFrameHigh .right_knee = none := by
  refine ⟨rfl, rfl, rfl, rfl, rfl⟩

lemma sqFrameLow_eval : Lkp sqFrameLow .left_hip = some ⟨.left_hip, 100, 300, 1⟩ ∧
    Lkp sqFrameLow .left_knee = some ⟨.left_knee, 100, 360, 1⟩ ∧
    Lkp sqFrameLow .left_ankle = none ∧ Lkp sqFrameLow .left_shoulder = none ∧
    Lkp sqFrameLow .right_knee = none := by
  refine ⟨rfl, rfl, rfl, rfl, rfl⟩

lemma sqFrameMid_eval : Lkp sqFrameMid .left_hip = some ⟨.left_hip, 100, 300, 1⟩ ∧
    Lkp sqFrameMid .left_knee = some ⟨.left_knee, 100, 400, 1⟩ ∧
    Lkp sqFrameMid .left_ankle = none ∧ Lkp sqFrameMid .left_shoulder = none ∧
    Lkp sqFrameMid .right_knee = none := by
  refine ⟨rfl, rfl, rfl, rfl, rfl⟩

lemma squatSignal_high : squatSignal sqFrameHigh = 150 := by
  rw [squatSignal, sqFrameHigh_eval.1, sqFrameHigh_eval.2.1]
  norm_num [jsAbs]

lemma squatSignal_low : squatSignal sqFrameLow = 60 := by
  rw [squatSignal, sqFrameLow_eval.1, sqFrameLow_eval.2.1]
  norm_num [jsAbs]

lemma squatSignal_mid : squatSignal sqFrameMid = 100 := by
  rw [squatSignal, sqFrameMid_eval.1, sqFrameMid_eval.2.1]
  norm_num [jsAbs]

lemma elbowSignal_pu135 : elbowSignal puFrame135 = 135 := by
  rw [elbowSignal,
    show Lkp puFrame135 .left_shoulder = some ⟨.left_shoulder, -1, 0, 1⟩ from rfl,
    show Lkp puFrame135 .left_elbow = some ⟨.left_elbow, 0, 0, 1⟩ from rfl,
    show Lkp puFrame135 .left_wrist = some ⟨.left_wrist, 1, 1, 1⟩ from rfl]
  exact getAngle_135 _ _ _ _ _ _

lemma elbowSignal_pl90 : elbowSignal plFrame90 = 90 := by
  rw [elbowSignal,
    show Lkp plFrame90 .left_shoulder = some ⟨.left_shoulder, 0, 1, 1⟩ from rfl,
    show Lkp plFrame90 .left_elbow = some ⟨.left_elbow, 0, 0, 1⟩ from rfl,
    show Lkp plFrame90 .left_wrist = some ⟨.left_wrist, 1, 0, 1⟩ from rfl]
  exact getAngle_right_angle _ _ _ _ _ _

lemma lungeSignal_lu90 : lungeSignal luFrame90 = 90 := by
  rw [lungeSignal,
    show Lkp luFrame90 .left_hip = some ⟨.left_hip, 0, 1, 1⟩ from rfl,
    show Lkp luFrame90 .left_knee = some ⟨.left_knee, 0, 0, 1⟩ from rfl,
    show Lkp luFrame90 .left_ankle = some ⟨.left_ankle, 1, 0, 1⟩ from rfl]
  exact getAngle_right_angle _ _ _ _ _ _

lemma onPoseResults_on (ex : Exercise) (now : String) (kps : List Keypoint)
    (st : SessionState) (hd : st.isDetecting = true) :
    onPoseResults ex now (some kps) st = countReps ex now kps (checkForm ex kps st) := by
  simp [onPoseResults, hd]

/-- Step 1 of the synthetic squat sequence: signal 150 in phase `up` changes
nothing. -/
lemma squat_run_step_high_up (st : SessionState) (hd : st.isDetecting = true)
    (hj : st.incorrectJoints = []) (hf : st.formFeedback = "")
    (hp : st.phase = .up) :
    onPoseResults squatsEx "t0" (some sqFrameHigh) st = st := by
  rw [onPoseResults_on _ _ _ _ hd]
  rw [checkForm_squats_eval st sqFrameHigh _ _ sqFrameHigh_eval.1 sqFrameHigh_eval.2.1
    sqFrameHigh_eval.2.2.1 sqFrameHigh_eval.2.2.2.1 sqFrameHigh_eval.2.2.2.2]
  rw [show ({ st with incorrectJoints := [], formFeedback := "" } : SessionState) = st from by
    cases st; simp_all]
  rw [countReps, exKind_squats,
    countStep_squat_eval squatsEx "t0" st sqFrameHigh _ _ sqFrameHigh_eval.1
      sqFrameHigh_eval.2.1 (by norm_num)]
  rw [if_neg (by rw [hp]; norm_num [jsAbs] : ¬ (jsAbs ((300:ℚ) - 450) < 80 ∧ st.phase = .up))]
  rw [if_neg (show ¬ (jsAbs ((300:ℚ) - 450) > 120 ∧ st.phase = .down) from by
    rw [hp]; simp)]


lemma exKind_pushups : exKindOfName pushupsEx.name = .pushup := by decide

lemma exKind_pullups : exKindOfName pullupsEx.name = .pullup := by decide

lemma exKind_lunges : exKindOfName lungesEx.name = .lunge := by decide

/-- Step with signal 60 from phase `up`: the squat counter arms (`up → down`)
without counting. -/
lemma squat_run_step_low_up (st : SessionState) (hd : st.isDetecting = true)
    (hj : st.incorrectJoints = []) (hf : st.formFeedback = "")
    (hp : st.phase = .up) :
    onPoseResults squatsEx "t0" (some sqFrameLow) st = { st with phase := .down } := by
  rw [onPoseResults_on _ _ _ _ hd]
  rw [checkForm_squats_eval st sqFrameLow _ _ sqFrameLow_eval.1 sqFrameLow_eval.2.1
    sqFrameLow_eval.2.2.1 sqFrameLow_eval.2.2.2.1 sqFrameLow_eval.2.2.2.2]
  rw [show ({ st with incorrectJoints := [], formFeedback := "" } : SessionState) = st from by
    cases st; simp_all]
  rw [countReps, exKind_squats,
    countStep_squat_eval squatsEx "t0" st sqFrameLow _ _ sqFrameLow_eval.1
      sqFrameLow_eval.2.1 (by norm_num)]
  rw [if_pos (show jsAbs ((300:ℚ) - 360) < 80 ∧ st.phase = .up from
    ⟨by norm_num [jsAbs], hp⟩)]

/-- Step with signal 150 from phase `down`: the squat counter fires a rep
(`down → up`). -/
lemma squat_run_step_high_down (st : SessionState) (hd : st.isDetecting = true)
    (hj : st.incorrectJoints = []) (hf : st.formFeedback = "")
    (hp : st.phase = .down) :
    onPoseResults squatsEx "t0" (some sqFrameHigh) st =
      incrementReps squatsEx "t0" { st with phase := .up } := by
  rw [onPoseResults_on _ _ _ _ hd]
  rw [checkForm_squats_eval st sqFrameHigh _ _ sqFrameHigh_eval.1 sqFrameHigh_eval.2.1
    sqFrameHigh_eval.2.2.1 sqFrameHigh_eval.2.2.2.1 sqFrameHigh_eval.2.2.2.2]
  rw [show ({ st with incorrectJoints := [], formFeedback := "" } : SessionState) = st from by
    cases st; simp_all]
  rw [countReps, exKind_squats,
    countStep_squat_eval squatsEx "t0" st sqFrameHigh _ _ sqFrameHigh_eval.1
      sqFrameHigh_eval.2.1 (by norm_num)]
  rw [if_neg (show ¬ (jsAbs ((300:ℚ) - 450) < 80 ∧ st.phase = .up) from by
    norm_num [jsAbs])]
  rw [if_pos (show jsAbs ((300:ℚ) - 450) > 120 ∧ st.phase = .down from
    ⟨by norm_num [jsAbs], hp⟩)]

/-- The synthetic squat sequence `150 → 60 → 150` from a fresh running state
counts exactly one rep. -/
lemma run_synthetic_squat :
    runFrames squatsEx "t0" runningState [sqFrameHigh, sqFrameLow, sqFrameHigh] =
      { runningState with currentReps := 1, sounds := 1 } := by
  rw [runFrames_cons, squat_run_step_high_up runningState rfl rfl rfl rfl]
  rw [runFrames_cons, squat_run_step_low_up runningState rfl rfl rfl rfl]
  rw [runFrames_cons, squat_run_step_high_down { runningState with phase := .down }
    rfl rfl rfl rfl]
  rw [runFrames_nil]
  decide

/-- The complete target-1 squat session: start, arm, fire; the session
completes and persists one summary whose `reps` field is the stale
pre-increment value 0. -/
lemma run_target_one :
    runFrames squatsEx "t0" (handleStartExercise { initialState with targetReps := "1" })
        [sqFrameLow, sqFrameHigh] =
      { initialState with
          targetReps := "1", step := .complete, cameraOn := true,
          poseOn := true, isDetecting := false, sounds := 1, currentReps := 1,
          saved := [{ exerciseName := "Squats", reps := 0, targetReps := some 1,
                      date := "t0", difficulty := "easy", category := "strength" }] } := by
  rw [show handleStartExercise { initialState with targetReps := "1" } =
      { initialState with
          targetReps := "1", step := .exercise, cameraOn := true,
          poseOn := true, isDetecting := true } from by decide]
  rw [runFrames_cons, squat_run_step_low_up _ rfl rfl rfl rfl]
  rw [runFrames_cons, squat_run_step_high_down _ rfl rfl rfl rfl]
  rw [runFrames_nil]
  decide

lemma jackOpenFrame_not_closed : ¬ jackClosed jackOpenFrame := by
  simp only [jackClosed,
    show Lkp jackOpenFrame .left_wrist = some ⟨.left_wrist, 100, 0, 1⟩ from rfl,
    show Lkp jackOpenFrame .left_shoulder = some ⟨.left_shoulder, 100, 100, 1⟩ from rfl,
    show Lkp jackOpenFrame .left_ankle = some ⟨.left_ankle, 50, 400, 1⟩ from rfl,
    show Lkp jackOpenFrame .right_ankle = some ⟨.right_ankle, 200, 400, 1⟩ from rfl]
  norm_num

lemma jackHalfFrame_half : jackHalfOpen jackHalfFrame := by
  simp only [jackHalfOpen,
    show Lkp jackHalfFrame .left_wrist = some ⟨.left_wrist, 100, 0, 1⟩ from rfl,
    show Lkp jackHalfFrame .left_shoulder = some ⟨.left_shoulder, 100, 100, 1⟩ from rfl,
    show Lkp jackHalfFrame .left_ankle = some ⟨.left_ankle, 100, 400, 1⟩ from rfl,
    show Lkp jackHalfFrame .right_ankle = some ⟨.right_ankle, 150, 400, 1⟩ from rfl]
  left
  constructor
  · norm_num
  · norm_num [jsAbs]


/-! # Claim theorems -/

/-- C1: every rep-signal exercise (squat, push-up, pull-up, lunge) has strict
hysteresis — squat `hipKneeDown 80 < hipKneeUp 120`, push-up
`elbowDown 90 < elbowUp 160`, pull-up `70 < 150`, lunge `85 < 150` — and any
frame sequence whose rep signal stays strictly between the two thresholds
never changes the phase and never increments `currentReps`. -/
theorem C1_hysteresis_thresholds :
    (thresholds.squat.hipKneeDown = 80 ∧ thresholds.squat.hipKneeUp = 120 ∧
      thresholds.squat.hipKneeDown < thresholds.squat.hipKneeUp) ∧
    (thresholds.pushup.elbowDown = 90 ∧ thresholds.pushup.elbowUp = 160 ∧
      thresholds.pushup.elbowDown < thresholds.pushup.elbowUp) ∧
    (thresholds.pullup.elbowDown = 70 ∧ thresholds.pullup.elbowUp = 150 ∧
      thresholds.pullup.elbowDown < thresholds.pullup.elbowUp) ∧
    (thresholds.lunge.kneeDown = 85 ∧ thresholds.lunge.kneeUp = 150 ∧
      thresholds.lunge.kneeDown < thresholds.lunge.kneeUp) ∧
    (∀ ex : Exercise, exKindOfName ex.name = .squat →
      ∀ (now : String) (frames : List (List Keypoint)) (st : SessionState),
      (∀ kps ∈ frames, thresholds.squat.hipKneeDown < squatSignal kps ∧
        squatSignal kps < thresholds.squat.hipKneeUp) →
      (runFrames ex now st frames).phase = st.phase ∧
      (runFrames ex now st frames).currentReps = st.currentReps) ∧
    (∀ ex : Exercise, exKindOfName ex.name = .pushup →
      ∀ (now : String) (frames : List (List Keypoint)) (st : SessionState),
      (∀ kps ∈ frames, (thresholds.pushup.elbowDown : ℝ) < elbowSignal kps ∧
        elbowSignal kps < (thresholds.pushup.elbowUp : ℝ)) →
      (runFrames ex now st frames).phase = st.phase ∧
      (runFrames ex now st frames).currentReps = st.currentReps) ∧
    (∀ ex : Exercise, exKindOfName ex.name = .pullup →
      ∀ (now : String) (frames : List (List Keypoint)) (st : SessionState),
      (∀ kps ∈ frames, (thresholds.pullup.elbowDown : ℝ) < elbowSignal kps ∧
        elbowSignal kps < (thresholds.pullup.elbowUp : ℝ)) →
      (runFrames ex now st frames).phase = st.phase ∧
      (runFrames ex now st frames).currentReps = st.currentReps) ∧
    (∀ ex : Exercise, exKindOfName ex.name = .lunge →
      ∀ (now : String) (frames : List (List Keypoint)) (st : SessionState),
      (∀ kps ∈ frames, (thresholds.lunge.kneeDown : ℝ) < lungeSignal kps ∧
        lungeSignal kps < (thresholds.lunge.kneeUp : ℝ)) →
      (runFrames ex now st frames).phase = st.phase ∧
      (runFrames ex now st frames).currentReps = st.currentReps) := by
  refine ⟨⟨rfl, rfl, by norm_num [thresholds]⟩, ⟨rfl, rfl, by norm_num [thresholds]⟩,
    ⟨rfl, rfl, by norm_num [thresholds]⟩, ⟨rfl, rfl, by norm_num [thresholds]⟩,
    ?_, ?_, ?_, ?_⟩
  · intro ex hk now frames st hP
    exact runFrames_phase_reps ex now _
      (fun kps hp s => by rw [hk]; exact countStep_squat_between ex now kps s hp.1 hp.2)
      frames st hP
  · intro ex hk now frames st hP
    exact runFrames_phase_reps ex now _
      (fun kps hp s => by rw [hk]; exact countStep_pushup_between ex now kps s hp.1 hp.2)
      frames st hP
  · intro ex hk now frames st hP
    exact runFrames_phase_reps ex now _
      (fun kps hp s => by rw [hk]; exact countStep_pullup_between ex now kps s hp.1 hp.2)
      frames st hP
  · intro ex hk now frames st hP
    exact runFrames_phase_reps ex now _
      (fun kps hp s => by rw [hk]; exact countStep_lunge_between ex now kps s hp.1 hp.2)
      frames st hP

/-- C1 witness: concrete in-band frames for each of the four exercises leave
a concrete running state's phase and rep count unchanged. -/
theorem C1_hysteresis_thresholds_witness :
    ((∀ kps ∈ [sqFrameMid], thresholds.squat.hipKneeDown < squatSignal kps ∧
        squatSignal kps < thresholds.squat.hipKneeUp) ∧
      (runFrames squatsEx "t0" runningState [sqFrameMid]).phase = runningState.phase ∧
      (runFrames squatsEx "t0" runningState [sqFrameMid]).currentReps =
        runningState.currentReps) ∧
    ((∀ kps ∈ [puFrame135], (thresholds.pushup.elbowDown : ℝ) < elbowSignal kps ∧
        elbowSignal kps < (thresholds.pushup.elbowUp : ℝ)) ∧
      (runFrames pushupsEx "t0" runningState [puFrame135]).phase = runningState.phase ∧
      (runFrames pushupsEx "t0" runningState [puFrame135]).currentReps =
        runningState.currentReps) ∧
    ((∀ kps ∈ [plFrame90], (thresholds.pullup.elbowDown : ℝ) < elbowSignal kps ∧
        elbowSignal kps < (thresholds.pullup.elbowUp : ℝ)) ∧
      (runFrames pullupsEx "t0" runningState [plFrame90]).phase = runningState.phase ∧
      (runFrames pullupsEx "t0" runningState [plFrame90]).currentReps =
        runningState.currentReps) ∧
    ((∀ kps ∈ [luFrame90], (thresholds.lunge.kneeDown : ℝ) < lungeSignal kps ∧
        lungeSignal kps < (thresholds.lunge.kneeUp : ℝ)) ∧
      (runFrames lungesEx "t0" runningState [luFrame90]).phase = runningState.phase ∧
      (runFrames lungesEx "t0" runningState [luFrame90]).currentReps =
        runningState.currentReps) := by
  have hsq : ∀ kps ∈ [sqFrameMid], thresholds.squat.hipKneeDown < squatSignal kps ∧
      squatSignal kps < thresholds.squat.hipKneeUp := by
    intro kps hkp
    rw [List.mem_singleton] at hkp
    subst hkp
    rw [squatSignal_mid]
    exact ⟨show (80:ℚ) < 100 by norm_num, show (100:ℚ) < 120 by norm_num⟩
  have hpu : ∀ kps ∈ [puFrame135], (thresholds.pushup.elbowDown : ℝ) < elbowSignal kps ∧
      elbowSignal kps < (thresholds.pushup.elbowUp : ℝ) := by
    intro kps hkp
    rw [List.mem_singleton] at hkp
    subst hkp
    rw [elbowSignal_pu135]
    constructor
    · show ((90:ℚ) : ℝ) < 135
      norm_num
    · show (135:ℝ) < ((160:ℚ) : ℝ)
      norm_num
  have hpl : ∀ kps ∈ [plFrame90], (thresholds.pullup.elbowDown : ℝ) < elbowSignal kps ∧
      elbowSignal kps < (thresholds.pullup.elbowUp : ℝ) := by
    intro kps hkp
    rw [List.mem_singleton] at hkp
    subst hkp
    rw [elbowSignal_pl90]
    constructor
    · show ((70:ℚ) : ℝ) < 90
      norm_num
    · show (90:ℝ) < ((150:ℚ) : ℝ)
      norm_num
  have hlu : ∀ kps ∈ [luFrame90], (thresholds.lunge.kneeDown : ℝ) < lungeSignal kps ∧
      lungeSignal kps < (thresholds.lunge.kneeUp : ℝ) := by
    intro kps hkp
    rw [List.mem_singleton] at hkp
    subst hkp
    rw [lungeSignal_lu90]
    constructor
    · show ((85:ℚ) : ℝ) < 90
      norm_num
    · show (90:ℝ) < ((150:ℚ) : ℝ)
      norm_num
  refine ⟨⟨hsq, ?_⟩, ⟨hpu, ?_⟩, ⟨hpl, ?_⟩, ⟨hlu, ?_⟩⟩
  · exact C1_hysteresis_thresholds.2.2.2.2.1 squatsEx exKind_squats "t0" [sqFrameMid]
      runningState hsq
  · exact C1_hysteresis_thresholds.2.2.2.2.2.1 pushupsEx exKind_pushups "t0" [puFrame135]
      runningState hpu
  · exact C1_hysteresis_thresholds.2.2.2.2.2.2.1 pullupsEx exKind_pullups "t0" [plFrame90]
      runningState hpl
  · exact C1_hysteresis_thresholds.2.2.2.2.2.2.2 lungesEx exKind_lunges "t0" [luFrame90]
      runningState hlu

/-- C2: `countReps` changes `currentReps` only by incrementing it exactly
once on a `down → up` phase edge (never on `up → down`); immediately after an
increment the phase is `up`, so the same edge can never count twice; and the
synthetic squat sequence 150 → 60 → 150 from a fresh running state increments
`currentReps` by exactly 1. -/
theorem C2_rep_edge :
    (∀ (ex : Exercise) (now : String) (kps : List Keypoint) (st : SessionState),
      (countReps ex now kps st).currentReps = st.currentReps ∨
      ((countReps ex now kps st).currentReps = st.currentReps + 1 ∧
        st.phase = .down ∧ (countReps ex now kps st).phase = .up)) ∧
    (∀ (ex : Exercise) (now : String) (kps kps2 : List Keypoint) (st : SessionState),
      (countReps ex now kps st).currentReps = st.currentReps + 1 →
      (countReps ex now kps2 (countReps ex now kps st)).currentReps =
        st.currentReps + 1) ∧
    (runFrames squatsEx "t0" runningState [sqFrameHigh, sqFrameLow, sqFrameHigh]).currentReps =
      runningState.currentReps + 1 := by
  refine ⟨?_, ?_, ?_⟩
  · intro ex now kps st
    rw [countReps]
    exact countStep_edge ex now (exKindOfName ex.name) kps st
  · intro ex now kps kps2 st h1
    simp only [countReps] at h1 ⊢
    rcases countStep_edge ex now (exKindOfName ex.name) kps st with e1 | e1
    · rw [e1] at h1
      omega
    · rcases countStep_edge ex now (exKindOfName ex.name) kps2
        (countStep ex now (exKindOfName ex.name) kps st) with e2 | e2
      · rw [e2, h1]
      · rw [e1.2.2] at e2
        exact absurd e2.2.1 (by decide)
  · rw [run_synthetic_squat]
    rfl

/-- C2 witness: from an armed (`down`) state, the 150-signal squat frame
counts exactly one rep, and feeding the same frame again does not count a
second one. -/
theorem C2_rep_edge_witness :
    (countReps squatsEx "t0" sqFrameHigh { runningState with phase := .down }).currentReps =
      ({ runningState with phase := .down } : SessionState).currentReps + 1 ∧
    (countReps squatsEx "t0" sqFrameHigh
        (countReps squatsEx "t0" sqFrameHigh
          { runningState with phase := .down })).currentReps =
      ({ runningState with phase := .down } : SessionState).currentReps + 1 := by
  have heval : countReps squatsEx "t0" sqFrameHigh { runningState with phase := .down } =
      incrementReps squatsEx "t0" { runningState with phase := .up } := by
    rw [countReps, exKind_squats,
      countStep_squat_eval squatsEx "t0" _ sqFrameHigh _ _ sqFrameHigh_eval.1
        sqFrameHigh_eval.2.1 (by norm_num)]
    rw [if_neg (show ¬ (jsAbs ((300:ℚ) - 450) < 80 ∧
        ({ runningState with phase := .down } : SessionState).phase = .up) from by
      norm_num [jsAbs])]
    rw [if_pos (show jsAbs ((300:ℚ) - 450) > 120 ∧
        ({ runningState with phase := .down } : SessionState).phase = .down from
      ⟨by norm_num [jsAbs], rfl⟩)]
  have h1 : (countReps squatsEx "t0" sqFrameHigh
      { runningState with phase := .down }).currentReps =
      ({ runningState with phase := .down } : SessionState).currentReps + 1 := by
    rw [heval]
    decide
  exact ⟨h1, C2_rep_edge.2.1 squatsEx "t0" sqFrameHigh sqFrameHigh _ h1⟩

/-- C3 (code bug): a target-1 squat session completes after one full cycle
and persists exactly one summary record carrying the exercise name, target,
difficulty, category and date — but its `reps` field is 0, the stale
pre-increment `currentReps` read by `saveWorkoutHistory` from inside the
`setCurrentReps` updater, not the rep count at completion (1). -/
theorem C3_complete_persists_stale_reps :
    (runFrames squatsEx "t0" (handleStartExercise { initialState with targetReps := "1" })
        [sqFrameLow, sqFrameHigh]).step = .complete ∧
    (runFrames squatsEx "t0" (handleStartExercise { initialState with targetReps := "1" })
        [sqFrameLow, sqFrameHigh]).currentReps = 1 ∧
    (runFrames squatsEx "t0" (handleStartExercise { initialState with targetReps := "1" })
        [sqFrameLow, sqFrameHigh]).saved =
      [{ exerciseName := "Squats", reps := 0, targetReps := some 1, date := "t0",
         difficulty := "easy", category := "strength" }] ∧
    (runFrames squatsEx "t0" (handleStartExercise { initialState with targetReps := "1" })
        [sqFrameLow, sqFrameHigh]).saved.map (fun s => s.reps) ≠ [1] := by
  rw [run_target_one]
  refine ⟨rfl, rfl, rfl, by decide⟩

/-- C4 (counterexample): in a running state with target 1 and no reps yet, a
manual rep raises `currentReps` to the target, yet the session does not
transition to `complete` and persists nothing: `handleManualRep` runs no
completion check, contradicting the claim. -/
theorem C4_manual_rep_counterexample :
    (handleManualRep { runningState with targetReps := "1" }).currentReps = 1 ∧
    reachedTarget (handleManualRep { runningState with targetReps := "1" }).currentReps
      (handleManualRep { runningState with targetReps := "1" }).targetReps = true ∧
    (handleManualRep { runningState with targetReps := "1" }).step ≠ .complete ∧
    (handleManualRep { runningState with targetReps := "1" }).saved = [] ∧
    (handleManualRep { runningState with targetReps := "1" }).sounds =
      ({ runningState with targetReps := "1" } : SessionState).sounds + 1 := by
  refine ⟨rfl, by decide, by decide, rfl, rfl⟩

/-- C4 (amended): a manual rep increments `currentReps` by exactly one and
fires the success sound, bypassing geometry entirely — but unlike an
automatic rep it performs NO completion check: step, persisted history,
detection flag and phase are untouched even when the target is reached. -/
theorem C4_manual_rep_amended (st : SessionState) :
    (handleManualRep st).currentReps = st.currentReps + 1 ∧
    (handleManualRep st).sounds = st.sounds + 1 ∧
    (handleManualRep st).step = st.step ∧
    (handleManualRep st).saved = st.saved ∧
    (handleManualRep st).isDetecting = st.isDetecting ∧
    (handleManualRep st).phase = st.phase ∧
    (handleManualRep st).targetReps = st.targetReps :=
  ⟨rfl, rfl, rfl, rfl, rfl, rfl, rfl⟩

/-- C5 (code bug): the start guard rejects the empty string, "0" and "-3"
without touching the state, but the non-numeric string "abc" — for which
`parseInt` yields NaN, and `NaN <= 0` is false — passes validation: the
session leaves `collectingTarget` and acquires the camera and pose
resources. -/
theorem C5_invalid_target_validation :
    handleStartExercise { initialState with targetReps := "" } =
      { initialState with targetReps := "" } ∧
    handleStartExercise { initialState with targetReps := "0" } =
      { initialState with targetReps := "0" } ∧
    handleStartExercise { initialState with targetReps := "-3" } =
      { initialState with targetReps := "-3" } ∧
    (handleStartExercise { initialState with targetReps := "abc" }).step = .exercise ∧
    (handleStartExercise { initialState with targetReps := "abc" }).cameraOn = true ∧
    (handleStartExercise { initialState with targetReps := "abc" }).poseOn = true := by
  decide

/-- C6: `getAngle` always lies in [0, 180], is symmetric in the two outer
points, and returns 0 whenever one of the three inputs is absent. -/
theorem C6_getAngle_range_symm (a b c : Option Keypoint) :
    0 ≤ getAngle a b c ∧ getAngle a b c ≤ 180 ∧
    getAngle a b c = getAngle c b a ∧
    getAngle none b c = 0 ∧ getAngle a none c = 0 ∧ getAngle a b none = 0 := by
  refine ⟨(getAngle_nonneg_le a b c).1, (getAngle_nonneg_le a b c).2,
    getAngle_symm a b c, rfl, ?_, ?_⟩
  · rcases a with _ | pa <;> rfl
  · rcases a with _ | pa <;> rcases b with _ | pb <;> rfl

/-- C7: one `checkForm` pass produces exactly one feedback string — that of
the LAST fired check (later checks overwrite earlier ones) — while
`incorrectJoints` is the concatenation (as a set: the union) of the joints of
EVERY fired check, including those whose feedback was overwritten; both
outputs are computed from the current frame alone and fully replace the
previous values. -/
theorem C7_checkForm_last_match_union (ex : Exercise) (kps : List Keypoint)
    (st : SessionState) :
    (checkForm ex kps st).incorrectJoints =
      (firedChecks kps (formChecks (jsToLower ex.name))).flatMap (fun c => c.joints) ∧
    (∀ j, j ∈ (checkForm ex kps st).incorrectJoints ↔
      ∃ c ∈ firedChecks kps (formChecks (jsToLower ex.name)), j ∈ c.joints) ∧
    (checkForm ex kps st).formFeedback =
      ((firedChecks kps (formChecks (jsToLower ex.name))).map (fun c => c.fb)).getLastD "" ∧
    (checkForm ex kps st).currentReps = st.currentReps ∧
    (checkForm ex kps st).phase = st.phase := by
  have h := checkFormCore_spec (jsToLower ex.name) kps
  refine ⟨?_, ?_, ?_, rfl, rfl⟩
  · show (checkFormCore (jsToLower ex.name) kps).1 = _
    rw [h]
  · intro j
    show j ∈ (checkFormCore (jsToLower ex.name) kps).1 ↔ _
    rw [h]
    simp [List.mem_flatMap]
  · show (checkFormCore (jsToLower ex.name) kps).2 = _
    rw [h]

/-- C8: a form check whose required landmarks are not all present with
visibility above 0.4 cannot fire (it flags no joints and contributes no
feedback), and a frame whose rep-gating landmarks are not all visible leaves
the entire session state — in particular the phase and `currentReps` —
unchanged by `countReps`. -/
theorem C8_low_visibility_no_fire :
    (∀ (name : String) (c : FormCheck), c ∈ formChecks name →
      ∀ kps : List Keypoint, ¬ allVisible c.required kps → ¬ c.cond kps) ∧
    (∀ (ex : Exercise) (now : String) (kps : List Keypoint) (st : SessionState),
      ¬ allVisible (repRequired (exKindOfName ex.name)) kps →
      countReps ex now kps st = st) := by
  constructor
  · intro name c hmem kps hvis hc
    exact hvis (formChecks_condVis hmem kps hc)
  · intro ex now kps st h
    rw [countReps]
    exact countStep_not_visible ex now _ kps st h

/-- C8 witness: on an empty frame the first squat check cannot fire and the
squat rep counter leaves a concrete running state untouched. -/
theorem C8_low_visibility_no_fire_witness :
    (squatCheck1 ∈ formChecks "squats" ∧ ¬ allVisible squatCheck1.required [] ∧
      ¬ squatCheck1.cond []) ∧
    (¬ allVisible (repRequired (exKindOfName squatsEx.name)) [] ∧
      countReps squatsEx "t0" [] runningState = runningState) := by
  have hmem : squatCheck1 ∈ formChecks "squats" := by
    simp [formChecks, squatChecks, (by decide : strIncludes "squats" "squat" = true)]
  have hnv1 : ¬ allVisible squatCheck1.required [] := by
    intro h
    rcases h .left_hip (by simp [squatCheck1]) with ⟨p, hp, -⟩
    simp [Lkp] at hp
  have hnv2 : ¬ allVisible (repRequired (exKindOfName squatsEx.name)) [] := by
    rw [exKind_squats]
    intro h
    rcases h .left_hip (by simp [repRequired]) with ⟨p, hp, -⟩
    simp [Lkp] at hp
  exact ⟨⟨hmem, hnv1, C8_low_visibility_no_fire.1 "squats" squatCheck1 hmem [] hnv1⟩,
         ⟨hnv2, C8_low_visibility_no_fire.2 squatsEx "t0" [] runningState hnv2⟩⟩

/-- C9 (counterexample): closing from a mid-rep running state whose phase is
`down` resets step, reps, target, feedback and joints and releases the camera
and pose — but the rep phase stays `down` instead of returning to its initial
`up` value, so the claim as stated is false. -/
theorem C9_close_counterexample :
    (handleClose { runningState with phase := .down }).step = .reps ∧
    (handleClose { runningState with phase := .down }).currentReps = 0 ∧
    (handleClose { runningState with phase := .down }).targetReps = "" ∧
    (handleClose { runningState with phase := .down }).formFeedback = "" ∧
    (handleClose { runningState with phase := .down }).incorrectJoints = [] ∧
    (handleClose { runningState with phase := .down }).cameraOn = false ∧
    (handleClose { runningState with phase := .down }).poseOn = false ∧
    (handleClose { runningState with phase := .down }).isDetecting = false ∧
    (handleClose { runningState with phase := .down }).phase = .down ∧
    (handleClose { runningState with phase := .down }).phase ≠ .up := by
  decide

/-- C9 (amended): `handleClose` stops detection, releases the camera and pose
resources and resets step, `currentReps`, `targetReps`, feedback and
`incorrectJoints` to the `collectingTarget` defaults — but it does NOT reset
the rep phase (`lastRepStateRef`), which keeps whatever value it had. -/
theorem C9_close_amended (st : SessionState) :
    handleClose st =
      { st with isDetecting := false, cameraOn := false, poseOn := false,
                step := .reps, currentReps := 0, targetReps := "",
                formFeedback := "", incorrectJoints := [] } ∧
    (handleClose st).phase = st.phase :=
  ⟨rfl, rfl⟩

/-- C10: for a jumping-jack exercise the only transition into phase `down` is
a frame with all four gating landmarks visible showing the fully closed
position (arms not raised AND legs not spread); starting from the initial
`up` phase, while no such frame has occurred the phase stays `up` and no rep
can fire; and a frame in which exactly one of the two conditions fails
changes nothing at all. -/
theorem C10_jack_arming (ex : Exercise) (now : String)
    (hk : exKindOfName ex.name = .jack) :
    (∀ (kps : List Keypoint) (st : SessionState),
      (countReps ex now kps st).phase = .down → st.phase = .down ∨ jackClosed kps) ∧
    (∀ (frames : List (List Keypoint)) (st : SessionState), st.phase = .up →
      (∀ kps ∈ frames, ¬ jackClosed kps) →
      (runFrames ex now st frames).phase = .up ∧
      (runFrames ex now st frames).currentReps = st.currentReps) ∧
    (∀ (kps : List Keypoint) (st : SessionState), jackHalfOpen kps →
      countReps ex now kps st = st) := by
  refine ⟨?_, ?_, ?_⟩
  · intro kps st h
    rw [countReps, hk] at h
    exact countStep_jack_to_down ex now kps st h
  · exact fun frames st hup hcl => runFrames_jack_up ex now hk frames st hup hcl
  · intro kps st h
    rw [countReps, hk]
    exact countStep_jack_half ex now kps st h

/-- C10 witness: with the concrete "Jumping Jacks" exercise, an armed state
stays explained by its own `down` phase, a fully open frame from `up` counts
nothing, and an arms-up-legs-together frame changes nothing. -/
theorem C10_jack_arming_witness :
    (exKindOfName jacksEx.name = .jack) ∧
    ((countReps jacksEx "t0" [] { runningState with phase := .down }).phase = .down ∧
      (({ runningState with phase := .down } : SessionState).phase = .down ∨
        jackClosed [])) ∧
    ((∀ kps ∈ [jackOpenFrame], ¬ jackClosed kps) ∧
      (runFrames jacksEx "t0" runningState [jackOpenFrame]).phase = .up ∧
      (runFrames jacksEx "t0" runningState [jackOpenFrame]).currentReps =
        runningState.currentReps) ∧
    (jackHalfOpen jackHalfFrame ∧
      countReps jacksEx "t0" jackHalfFrame runningState = runningState) := by
  have hk := exKind_jacks
  have hdown : (countReps jacksEx "t0" [] { runningState with phase := .down }).phase =
      .down := by
    rw [countReps, hk]
    rfl
  have hcl : ∀ kps ∈ [jackOpenFrame], ¬ jackClosed kps := by
    intro kps hkk
    rw [List.mem_singleton] at hkk
    subst hkk
    exact jackOpenFrame_not_closed
  refine ⟨hk, ⟨hdown, (C10_jack_arming jacksEx "t0" hk).1 [] _ hdown⟩, ?_, ?_⟩
  · have h2 := (C10_jack_arming jacksEx "t0" hk).2.1 [jackOpenFrame] runningState rfl hcl
    exact ⟨hcl, h2.1, h2.2⟩
  · exact ⟨jackHalfFrame_half,
      (C10_jack_arming jacksEx "t0" hk).2.2 jackHalfFrame runningState jackHalfFrame_half⟩

end GymZen
